import Mathlib

/-!
# Verification of the HA API limiter core

Shallow embedding of the `ha_api_limiter` Python package (config.py,
limiter.py, learner.py, ws_filter.py, and the HTTP gate wiring in main.py),
together with theorems checking the natural-language specification against it.

Conventions of the embedding:
* JSON values (the results of `json.loads`) are modelled by the inductive
  `Json`; Python `None` and JSON `null` coincide (as they do after
  `json.loads`), object key order is the insertion order of the source text.
* Fallible Python code (AttributeError / TypeError / KeyError paths) is
  modelled in the `Except Unit` monad; `throw ()` marks any raised exception.
* `self` of `WebSocketFilter` is the structure `FilterState`
  (whitelist + the two per-connection maps); methods become functions
  returning the updated state.
* Machine-level details that cannot matter here (Python `str` interning,
  unicode-whitespace beyond ASCII in `str.strip`, multi-byte percent
  escapes in `urllib.parse.unquote`) are noted at the definition they touch.
-/

/-- JSON values as produced by Python's `json.loads`.  Numbers are modelled
as integers (no claim involves non-integer numbers); objects are ordered
association lists with string keys, mirroring Python `dict` insertion
order. -/
inductive Json where
  | null
  | bool (b : Bool)
  | num (n : Int)
  | str (s : String)
  | arr (xs : List Json)
  | obj (kvs : List (String × Json))
deriving Repr

mutual

def Json.decEq : (a b : Json) → Decidable (a = b)
  | .null, .null => isTrue rfl
  | .bool a, .bool b =>
      if h : a = b then isTrue (by rw [h]) else isFalse (fun hh => h (by injection hh))
  | .num a, .num b =>
      if h : a = b then isTrue (by rw [h]) else isFalse (fun hh => h (by injection hh))
  | .str a, .str b =>
      if h : a = b then isTrue (by rw [h]) else isFalse (fun hh => h (by injection hh))
  | .arr a, .arr b =>
      match Json.decEqList a b with
      | isTrue h => isTrue (by rw [h])
      | isFalse h => isFalse (fun hh => h (by injection hh))
  | .obj a, .obj b =>
      match Json.decEqObj a b with
      | isTrue h => isTrue (by rw [h])
      | isFalse h => isFalse (fun hh => h (by injection hh))
  | .null, .bool _ | .null, .num _ | .null, .str _ | .null, .arr _ | .null, .obj _
  | .bool _, .null | .bool _, .num _ | .bool _, .str _ | .bool _, .arr _ | .bool _, .obj _
  | .num _, .null | .num _, .bool _ | .num _, .str _ | .num _, .arr _ | .num _, .obj _
  | .str _, .null | .str _, .bool _ | .str _, .num _ | .str _, .arr _ | .str _, .obj _
  | .arr _, .null | .arr _, .bool _ | .arr _, .num _ | .arr _, .str _ | .arr _, .obj _
  | .obj _, .null | .obj _, .bool _ | .obj _, .num _ | .obj _, .str _ | .obj _, .arr _ =>
      isFalse (fun h => Json.noConfusion h)

def Json.decEqList : (a b : List Json) → Decidable (a = b)
  | [], [] => isTrue rfl
  | [], _ :: _ => isFalse (fun h => List.noConfusion h)
  | _ :: _, [] => isFalse (fun h => List.noConfusion h)
  | x :: xs, y :: ys =>
      match Json.decEq x y with
      | isFalse h1 => isFalse (fun hh => h1 (by injection hh))
      | isTrue h1 =>
        match Json.decEqList xs ys with
        | isTrue h2 => isTrue (by rw [h1, h2])
        | isFalse h2 => isFalse (fun hh => h2 (by injection hh))

def Json.decEqObj : (a b : List (String × Json)) → Decidable (a = b)
  | [], [] => isTrue rfl
  | [], _ :: _ => isFalse (fun h => List.noConfusion h)
  | _ :: _, [] => isFalse (fun h => List.noConfusion h)
  | (k, v) :: xs, (k', v') :: ys =>
      if hk : k = k' then
        match Json.decEq v v' with
        | isFalse h1 =>
            isFalse (fun hh => by
              injection hh with h3 h4
              exact h1 ((Prod.mk.injEq _ _ _ _ ▸ h3).2))
        | isTrue h1 =>
          match Json.decEqObj xs ys with
          | isTrue h2 => isTrue (by rw [hk, h1, h2])
          | isFalse h2 => isFalse (fun hh => h2 (by injection hh))
      else
        isFalse (fun hh => by
          injection hh with h3 h4
          exact hk ((Prod.mk.injEq _ _ _ _ ▸ h3).1))

end

instance : DecidableEq Json := Json.decEq

namespace Json

/-- Python truthiness (`if x:`) of a json-loaded value. -/
def pyTruthy : Json → Bool
  | .null => false
  | .bool b => b
  | .num n => n != 0
  | .str s => !(s == "")
  | .arr xs => !xs.isEmpty
  | .obj kvs => !kvs.isEmpty

/-- Whether the value is hashable in Python (usable as a `dict` key /
`set` element); lists and dicts are not. -/
def hashable : Json → Bool
  | .arr _ => false
  | .obj _ => false
  | _ => true

end Json

/-- Embeds `d[k]` lookup inside an object's association list; `none` when the key
is absent. -/
def jlookup (kvs : List (String × Json)) (k : String) : Option Json :=
  List.lookup k kvs

/-- Python `d.get(k)` on an object: the stored value, `None` (= `null`)
when absent.  (After `json.loads`, a stored JSON `null` is also Python
`None`, so the two cases genuinely coincide.) -/
def jget (kvs : List (String × Json)) (k : String) : Json :=
  (jlookup kvs k).getD .null

/-- Python `d.get(k, default)` on an object. -/
def jgetD (kvs : List (String × Json)) (k : String) (dflt : Json) : Json :=
  (jlookup kvs k).getD dflt

/-- Python `x.get(k)` on an arbitrary value: `AttributeError` when `x` is
not a dict. -/
def pyGet (j : Json) (k : String) : Except Unit Json :=
  match j with
  | .obj kvs => pure (jget kvs k)
  | _ => throw ()

/-- Python `x[k]` string indexing: the value for objects (KeyError when
absent), `TypeError` otherwise. -/
def pyIndex (j : Json) (k : String) : Except Unit Json :=
  match j with
  | .obj kvs =>
      match jlookup kvs k with
      | some v => pure v
      | none => throw ()
  | _ => throw ()

/-- Python `s.startswith(pre)` / prefix tests, on the character lists
(evaluation-friendly form of `String.startsWith`). -/
def strStartsWith (s pre : String) : Bool :=
  pre.toList.isPrefixOf s.toList

/-- Substring occurrence test on character lists (Python `sub in s`). -/
def charsInfix (needle : List Char) : List Char → Bool
  | [] => needle.isPrefixOf []
  | c :: rest => needle.isPrefixOf (c :: rest) || charsInfix needle rest

/-- Python `needle in x` for a string needle: key membership for dicts,
element equality for lists, substring test for strings, `TypeError`
otherwise. -/
def pyContains (needle : String) (j : Json) : Except Unit Bool :=
  match j with
  | .obj kvs => pure (kvs.any (fun p => p.1 == needle))
  | .arr xs => pure (xs.any (fun x => decide (x = .str needle)))
  | .str s => pure (charsInfix needle.toList s.toList)
  | _ => throw ()

mutual

/-- Python `repr` of a json-loaded value (string escaping inside `repr`
of strings is elided; no claim evaluates it on a string needing escapes). -/
def pyRepr : Json → String
  | .null => "None"
  | .bool true => "True"
  | .bool false => "False"
  | .num n => toString n
  | .str s => "'" ++ s ++ "'"
  | .arr xs => "[" ++ pyReprList xs ++ "]"
  | .obj kvs => "\x7b" ++ pyReprObj kvs ++ "\x7d"

def pyReprList : List Json → String
  | [] => ""
  | [x] => pyRepr x
  | x :: y :: xs => pyRepr x ++ ", " ++ pyReprList (y :: xs)

def pyReprObj : List (String × Json) → String
  | [] => ""
  | [(k, v)] => "'" ++ k ++ "': " ++ pyRepr v
  | (k, v) :: p :: xs => "'" ++ k ++ "': " ++ pyRepr v ++ ", " ++ pyReprObj (p :: xs)

end

/-- Python `str()` of a json-loaded value (as used by f-strings in the
error messages). -/
def pyStr : Json → String
  | .str s => s
  | j => pyRepr j

/-- Python `{**data, k: v}` on an object: replace the value in place when
the key exists, append the pair otherwise. -/
def setKey (kvs : List (String × Json)) (k : String) (v : Json) : List (String × Json) :=
  if kvs.any (fun p => p.1 == k) then
    kvs.map (fun p => if p.1 = k then (k, v) else p)
  else
    kvs ++ [(k, v)]

/-! ## Glob matching (`fnmatch.fnmatch`, POSIX case-sensitive)

Models `fnmatch.translate`: `*` → any run, `?` → any one character,
`[...]` → character class (leading `!` negates; `]` directly after the
opening `[` or the `!` is literal; `a-b` is a code-point range; an
unclosed `[` is a literal `[`).  `fnmatch` anchors with `\Z`, so there is
no trailing-newline tolerance here (unlike `$`, used elsewhere). -/


/-- Consume characters of a class body up to the closing `]`;
`none` when the bracket is unclosed. -/
def takeUntilRB : List Char → Option (List Char × List Char)
  | [] => none
  | c :: rest =>
      if c = ']' then some ([], rest)
      else
        match takeUntilRB rest with
        | some (stuff, r) => some (c :: stuff, r)
        | none => none

/-- Split a class body from the characters following `[`, with
`fnmatch.translate`'s skips: a leading `!` and a `]` right after it are
part of the body. -/
def classSplit (cs : List Char) : Option (List Char × List Char) :=
  let (pre, rest) :=
    match cs with
    | '!' :: ']' :: r => (['!', ']'], r)
    | '!' :: r => (['!'], r)
    | ']' :: r => ([']'], r)
    | r => ([], r)
  match takeUntilRB rest with
  | some (stuff, r2) => some (pre ++ stuff, r2)
  | none => none

/-- Membership of a character in a (non-negated) class body;
`a-b` ranges use code-point order, a `-` at either end is literal. -/
def classItemsMatch (c : Char) : List Char → Bool
  | a :: '-' :: b :: rest =>
      (a ≤ c && c ≤ b) || classItemsMatch c rest
  | a :: rest => a == c || classItemsMatch c rest
  | [] => false

/-- Match of a full class body (with optional leading `!`). -/
def classMatch (stuff : List Char) (c : Char) : Bool :=
  match stuff with
  | '!' :: items => !(classItemsMatch c items)
  | items => classItemsMatch c items

/-- Embeds `fnmatch`-style glob matching of a pattern against a string,
both as character lists. -/
def globMatch (p s : List Char) : Bool :=
  match p, s with
  | [], [] => true
  | [], _ :: _ => false
  | '*' :: ps, s =>
      globMatch ps s ||
        (match s with
         | [] => false
         | _ :: s' => globMatch ('*' :: ps) s')
  | '?' :: _, [] => false
  | '?' :: ps, _ :: s' => globMatch ps s'
  | '[' :: ps, s =>
      (match classSplit ps with
       | some (stuff, ps') =>
          (match s with
           | [] => false
           | c :: s' => classMatch stuff c && globMatch ps' s')
       | none =>
          (match s with
           | [] => false
           | c :: s' => (c == '[') && globMatch ps s'))
  | _ :: _, [] => false
  | c :: ps, d :: s' => (c == d) && globMatch ps s'
termination_by (s.length, p.length)

/-- Embeds `fnmatch.fnmatch(s, pattern)` (POSIX `normcase` is the identity). -/
def fnmatch (s pattern : String) : Bool :=
  globMatch pattern.toList s.toList

/-! ## Endpoint templates (`WhitelistConfig._compile_endpoint_patterns`)

A template is compiled by substituting each `{...}` with the marker
`__PARAM__`, escaping (which our direct token representation subsumes:
every non-special character is literal), replacing the marker with
`[^/]+` and the escaped `*` with `.*`, and anchoring as `^...$`.
Matching is `re.match` of that anchored pattern, including the Python
quirks: `$` also matches just before one trailing newline, and `.` (from
`*` → `.*`) does not match a newline, while `[^/]` does. -/

/-- A compiled token of an endpoint pattern. -/
inductive EpTok where
  | lit (c : Char)
  | param
  | star
deriving DecidableEq, Repr

/-- Skip a `[^}]+}` group after an opening `{`; `none` when the regex
`\{[^}]+\}` does not match here. -/
def dropBraceAux : List Char → Option (List Char)
  | [] => none
  | c :: rest => if c = '}' then some rest else dropBraceAux rest

/-- As `dropBraceAux`, but requiring at least one body character. -/
def dropBrace : List Char → Option (List Char)
  | [] => none
  | c :: rest => if c = '}' then none else dropBraceAux rest

lemma dropBraceAux_length {cs r : List Char} (h : dropBraceAux cs = some r) :
    r.length < cs.length := by
  induction cs generalizing r with
  | nil => simp [dropBraceAux] at h
  | cons c rest ih =>
      rw [dropBraceAux] at h
      by_cases hc : c = '}'
      · simp [hc] at h
        subst h
        simp
      · simp [hc] at h
        have := ih h
        simp
        omega

lemma dropBrace_length {cs r : List Char} (h : dropBrace cs = some r) :
    r.length < cs.length := by
  cases cs with
  | nil => simp [dropBrace] at h
  | cons c rest =>
      rw [dropBrace] at h
      by_cases hc : c = '}'
      · simp [hc] at h
      · simp [hc] at h
        have := dropBraceAux_length h
        simp
        omega

/-- Embeds `re.sub(r"\{[^}]+\}", "__PARAM__", endpoint)` on the template's
characters. -/
def substBraces (cs : List Char) : List Char :=
  match cs with
  | [] => []
  | c :: rest =>
      if c = '{' then
        match h : dropBrace rest with
        | some rest' => "__PARAM__".toList ++ substBraces rest'
        | none => '{' :: substBraces rest
      else c :: substBraces rest
termination_by cs.length
decreasing_by
  · simp
    have := dropBrace_length h
    omega
  · simp
  · simp

/-- Tokenize the substituted pattern text: the marker becomes `[^/]+`,
`*` becomes `.*` (via the escaped-`*` replacement), everything else is a
literal character. -/
def epTokenize (cs : List Char) : List EpTok :=
  match cs with
  | [] => []
  | c :: rest =>
      if h : "__PARAM__".toList.isPrefixOf (c :: rest) then
        .param :: epTokenize ((c :: rest).drop 9)
      else if c = '*' then
        .star :: epTokenize rest
      else
        .lit c :: epTokenize rest
termination_by cs.length
decreasing_by all_goals (simp only [List.length_drop, List.length_cons]; omega)

/-- Compile one endpoint template to its token list. -/
def compilePattern (endpoint : String) : List EpTok :=
  epTokenize (substBraces endpoint.toList)

mutual

/-- Anchored match of a compiled endpoint pattern against the remaining
characters; at the end of the pattern, `$` accepts the empty remainder or
a single trailing newline. -/
def epMatch (ts : List EpTok) (s : List Char) : Bool :=
  match ts, s with
  | [], [] => true
  | [], ['\n'] => true
  | [], _ => false
  | .lit _ :: _, [] => false
  | .lit c :: ts', d :: s' => c == d && epMatch ts' s'
  | .param :: _, [] => false
  | .param :: ts', c :: s' => decide (c ≠ '/') && epParamRest ts' s'
  | .star :: ts', s =>
      epMatch ts' s ||
        (match s with
         | [] => false
         | c :: s' => decide (c ≠ '\n') && epMatch (.star :: ts') s')
termination_by (s.length, ts.length, 0)

/-- Embeds `[^/]*` followed by the rest of the pattern. -/
def epParamRest (ts : List EpTok) (s : List Char) : Bool :=
  epMatch ts s ||
    (match s with
     | [] => false
     | c :: s' => decide (c ≠ '/') && epParamRest ts s')
termination_by (s.length, ts.length, 1)

end

/-! ## `WhitelistConfig` (config.py) -/

/-- The whitelist: seven string collections plus the compiled endpoint
patterns (`self._endpoint_patterns`).  `config_path` handling is modelled
separately with `YamlDoc` below. -/
structure WhitelistConfig where
  endpoints : List String := []
  entities : List String := []
  devices : List String := []
  areas : List String := []
  allowed_ws_types : List String := []
  allowed_event_types : List String := []
  allowed_services : List String := []
  endpoint_patterns : List (List EpTok) := []
deriving DecidableEq, Repr

namespace WhitelistConfig

/-- Embeds `_compile_endpoint_patterns`. -/
def compile_endpoint_patterns (wl : WhitelistConfig) : WhitelistConfig :=
  { wl with endpoint_patterns := wl.endpoints.map compilePattern }

/-- Embeds `is_endpoint_allowed`. -/
def is_endpoint_allowed (wl : WhitelistConfig) (path : String) : Bool :=
  wl.endpoint_patterns.any (fun p => epMatch p path.toList)

/-- Embeds `is_entity_allowed`. -/
def is_entity_allowed (wl : WhitelistConfig) (entity_id : String) : Bool :=
  wl.entities.any (fun pattern => fnmatch entity_id pattern)

/-- Embeds `is_device_allowed`. -/
def is_device_allowed (wl : WhitelistConfig) (device_id : String) : Bool :=
  wl.devices.any (fun pattern => fnmatch device_id pattern)

/-- Embeds `is_area_allowed`. -/
def is_area_allowed (wl : WhitelistConfig) (area_id : String) : Bool :=
  wl.areas.any (fun pattern => fnmatch area_id pattern)

/-- Embeds `add_endpoint`; returns the updated config and whether it appended. -/
def add_endpoint (wl : WhitelistConfig) (endpoint : String) : WhitelistConfig × Bool :=
  if endpoint ∈ wl.endpoints then (wl, false)
  else if wl.is_endpoint_allowed endpoint then (wl, false)
  else (compile_endpoint_patterns { wl with endpoints := wl.endpoints ++ [endpoint] }, true)

/-- Embeds `add_entity`. -/
def add_entity (wl : WhitelistConfig) (entity_id : String) : WhitelistConfig × Bool :=
  if entity_id ∈ wl.entities ∨ wl.is_entity_allowed entity_id then (wl, false)
  else ({ wl with entities := wl.entities ++ [entity_id] }, true)

/-- Embeds `add_device`. -/
def add_device (wl : WhitelistConfig) (device_id : String) : WhitelistConfig × Bool :=
  if device_id ∈ wl.devices ∨ wl.is_device_allowed device_id then (wl, false)
  else ({ wl with devices := wl.devices ++ [device_id] }, true)

/-- Embeds `add_area`. -/
def add_area (wl : WhitelistConfig) (area_id : String) : WhitelistConfig × Bool :=
  if area_id ∈ wl.areas ∨ wl.is_area_allowed area_id then (wl, false)
  else ({ wl with areas := wl.areas ++ [area_id] }, true)

end WhitelistConfig

/-! ## Persistence (`WhitelistConfig.save` / `WhitelistConfig.load`)

The YAML file is modelled by the seven recognized keys, each either
absent (`none`) or a list of strings; `load` treats a present `null`
like an empty list (`data.get(key) or []`), and `save`'s three branches
(CommentedSeq append / list rebuild / fresh key) all produce the same
content, existing entries followed by the sorted new ones.  Comment and
quoting preservation, and the copy of the base template when the file is
missing, are byte-level concerns outside this model: `save` is modelled
as acting on whatever existing document the merge starts from. -/

structure YamlDoc where
  endpoints : Option (List String) := none
  entities : Option (List String) := none
  devices : Option (List String) := none
  areas : Option (List String) := none
  allowed_ws_types : Option (List String) := none
  allowed_event_types : Option (List String) := none
  allowed_services : Option (List String) := none
deriving DecidableEq, Repr

/-- Insertion into a `≤`-sorted list (used to model Python `sorted`). -/
def insertSorted (x : String) : List String → List String
  | [] => [x]
  | y :: ys => if x ≤ y then x :: y :: ys else y :: insertSorted x ys

/-- Python `sorted` on strings (code-point lexicographic). -/
def pySorted : List String → List String
  | [] => []
  | x :: xs => insertSorted x (pySorted xs)

/-- The `append_items` helper inside `save`: keep the existing entries
and append the sorted new ones; leave the document untouched when
nothing is new. -/
def appendItems (existing : Option (List String)) (items : List String) :
    Option (List String) :=
  let ex := existing.getD []
  let newItems := items.filter (fun i => i ∉ ex)
  if newItems.isEmpty then existing
  else some (ex ++ pySorted newItems)

/-- Embeds `WhitelistConfig.save`: merge the in-memory whitelist into the
existing document.  Note the source persists only `endpoints`,
`entities`, `devices` and `areas`. -/
def WhitelistConfig.save (wl : WhitelistConfig) (doc : YamlDoc) : YamlDoc :=
  { doc with
    endpoints := appendItems doc.endpoints wl.endpoints
    entities := appendItems doc.entities wl.entities
    devices := appendItems doc.devices wl.devices
    areas := appendItems doc.areas wl.areas }

/-- Embeds `WhitelistConfig.load`: read the seven keys (missing/null as empty)
and compile the endpoint patterns. -/
def WhitelistConfig.load (doc : YamlDoc) : WhitelistConfig :=
  WhitelistConfig.compile_endpoint_patterns
    { endpoints := doc.endpoints.getD []
      entities := doc.entities.getD []
      devices := doc.devices.getD []
      areas := doc.areas.getD []
      allowed_ws_types := doc.allowed_ws_types.getD []
      allowed_event_types := doc.allowed_event_types.getD []
      allowed_services := doc.allowed_services.getD []
      endpoint_patterns := [] }

/-! ## HTTP gate (limiter.py) and its helpers -/

/-- Embeds `[a-z_]` (the regexes use ASCII classes). -/
def isLowerU (c : Char) : Bool := ('a' ≤ c && c ≤ 'z') || c == '_'

/-- Embeds `[a-z0-9_]`. -/
def isLowerDigitU (c : Char) : Bool :=
  ('a' ≤ c && c ≤ 'z') || ('0' ≤ c && c ≤ '9') || c == '_'

/-- Match `[a-z_]+\.[a-z0-9_]+` against the whole remainder, with `$`'s
tolerance for one trailing newline.  Both classes exclude `.` and `\n`,
so greedy regex matching is deterministic here. -/
def entityTail (cs : List Char) : Bool :=
  let (tok1, rest1) := cs.span isLowerU
  match tok1, rest1 with
  | [], _ => false
  | _ :: _, '.' :: rest2 =>
      let (tok2, rest3) := rest2.span isLowerDigitU
      match tok2, rest3 with
      | [], _ => false
      | _ :: _, [] => true
      | _ :: _, ['\n'] => true
      | _, _ => false
  | _, _ => false

/-- Strip a literal prefix, or `none`. -/
def stripPrefixChars (pre cs : List Char) : Option (List Char) :=
  match pre, cs with
  | [], cs => some cs
  | p :: pre', c :: cs' => if p = c then stripPrefixChars pre' cs' else none
  | _ :: _, [] => none

/-- Embeds `Limiter._extract_entity_from_path`: the entity captured by
`^/api/states/(...)$` or `^/api/camera_proxy/(...)$`.  The captured group
is exactly the span of class characters. -/
def extract_entity_from_path (path : String) : Option String :=
  let tryOne : List Char → Option String := fun rest =>
    if entityTail rest then
      some (String.mk (rest.takeWhile (fun c => isLowerU c || isLowerDigitU c || c == '.')))
    else none
  match stripPrefixChars "/api/states/".toList path.toList with
  | some rest => tryOne rest
  | none =>
      match stripPrefixChars "/api/camera_proxy/".toList path.toList with
      | some rest => tryOne rest
      | none => none

/-- Python `str.strip()` restricted to ASCII whitespace (the claims never
exercise non-ASCII whitespace). -/
def pyStrip (s : String) : String :=
  let ws : Char → Bool := fun c =>
    [' ', '\t', '\n', '\r', '\x0b', '\x0c'].contains c
  String.mk ((s.toList.dropWhile ws).reverse.dropWhile ws |>.reverse)

/-- Python `str.split(sep)` for a one-character separator (splitting on
every occurrence; `""` pieces are kept). -/
def pySplitOn (sep : Char) (s : String) : List String :=
  let rec go : List Char → List Char → List String
    | acc, [] => [String.mk acc.reverse]
    | acc, c :: rest =>
        if c = sep then String.mk acc.reverse :: go [] rest
        else go (c :: acc) rest
  go [] s.toList

/-- Hex digit value (code points: 48-57 digits, 97-102 lowercase,
65-70 uppercase). -/
def hexVal (c : Char) : Option Nat :=
  let n := c.toNat
  if 48 ≤ n ∧ n ≤ 57 then some (n - 48)
  else if 97 ≤ n ∧ n ≤ 102 then some (n - 87)
  else if 65 ≤ n ∧ n ≤ 70 then some (n - 55)
  else none

/-- Embeds `urllib.parse.unquote_plus`: `+` → space and `%hh` decoding
(single-byte escapes; multi-byte UTF-8 sequences are out of scope for
every claim). -/
def unquotePlusChars : List Char → List Char
  | [] => []
  | '+' :: rest => ' ' :: unquotePlusChars rest
  | '%' :: a :: b :: rest =>
      match hexVal a, hexVal b with
      | some x, some y => Char.ofNat (16 * x + y) :: unquotePlusChars rest
      | _, _ => '%' :: unquotePlusChars (a :: b :: rest)
  | c :: rest => c :: unquotePlusChars rest

def unquotePlus (s : String) : String :=
  String.mk (unquotePlusChars s.toList)

/-- Embeds `urllib.parse.parse_qsl` with default arguments: split on `&`, skip
empty chunks, skip chunks without `=` or with an empty value, decode both
sides. -/
def parseQsl (query : String) : List (String × String) :=
  (pySplitOn '&' query).filterMap (fun chunk =>
    if chunk = "" then none
    else
      match chunk.toList.span (fun c => c ≠ '=') with
      | (_, []) => none
      | (name, _ :: value) =>
          if value.isEmpty then none
          else some (unquotePlus (String.mk name), unquotePlus (String.mk value)))

/-- Embeds `parse_qs(query).get(key, [])`: all values for `key`, in order. -/
def parseQsGet (query key : String) : List String :=
  (parseQsl query).filterMap (fun p => if p.1 = key then some p.2 else none)

/-- Embeds `Limiter._extract_entities_from_query`. -/
def extract_entities_from_query (path query : String) : List String :=
  if strStartsWith path "/api/history/period/" then
    (parseQsGet query "filter_entity_id").flatMap (fun entity_list =>
      (pySplitOn ',' entity_list).filterMap (fun e =>
        if pyStrip e = "" then none else some (pyStrip e)))
  else if strStartsWith path "/api/logbook/" then
    parseQsGet query "entity"
  else []

/-- Embeds `CheckResult`. -/
structure CheckResult where
  allowed : Bool
  reason : String
deriving DecidableEq, Repr

/-- Embeds `Limiter.check_request` (the `Limiter` object holds only the
whitelist, so the whitelist is the receiver here). -/
def check_request (wl : WhitelistConfig) (path : String) (method : String := "GET")
    (query : String := "") : CheckResult :=
  let _ := method   -- captured for diagnostics only; never gates
  if path = "/health" then
    { allowed := true, reason := "Health check endpoint" }
  else if !wl.is_endpoint_allowed path then
    { allowed := false, reason := "Endpoint not in whitelist: " ++ path }
  else
    match extract_entity_from_path path with
    | some entity_id =>
        if !wl.is_entity_allowed entity_id then
          { allowed := false, reason := "Entity not in whitelist: " ++ entity_id }
        else checkQueryEntities wl path query
    | none => checkQueryEntities wl path query
where
  /-- The query-entity loop: deny on the first entity not in the
  whitelist. -/
  checkQueryEntities (wl : WhitelistConfig) (path query : String) : CheckResult :=
    match (extract_entities_from_query path query).find?
        (fun e => !wl.is_entity_allowed e) with
    | some entity_id =>
        { allowed := false, reason := "Entity not in whitelist: " ++ entity_id }
    | none => { allowed := true, reason := "Allowed by whitelist" }

/-- Embeds `Limiter.check_request` as a transformer of its receiver's state:
the method body contains no assignment, so the receiver (the whitelist)
comes back with the result unchanged. -/
def check_requestS (wl : WhitelistConfig) (path method query : String) :
    WhitelistConfig × CheckResult :=
  (wl, check_request wl path method query)

/-- The limit-mode gate inside `proxy_request` (main.py): it calls
`limiter.check_request(full_path, request.method)` — without the query
string, which therefore stays at its `""` default. -/
def proxy_request_check (wl : WhitelistConfig) (full_path method : String) : CheckResult :=
  check_request wl full_path method ""

/-! ## Learn-mode endpoint normalizer (`Learner._normalize_endpoint`) -/

/-- Embeds `^/api/services/([a-z_]+)/([a-z_]+)$` (two groups, with the `$`
newline tolerance). -/
def servicesTail (cs : List Char) : Bool :=
  let (tok1, rest1) := cs.span isLowerU
  match tok1, rest1 with
  | [], _ => false
  | _ :: _, '/' :: rest2 =>
      let (tok2, rest3) := rest2.span isLowerU
      match tok2, rest3 with
      | [], _ => false
      | _ :: _, [] => true
      | _ :: _, ['\n'] => true
      | _, _ => false
  | _, _ => false

/-- Embeds `\d{4}-\d{2}-\d{2}` immediately here (prefix; unanchored at the
end).  `\d` is modelled as ASCII digits. -/
def datePrefix : List Char → Bool
  | d1 :: d2 :: d3 :: d4 :: '-' :: d5 :: d6 :: '-' :: d7 :: d8 :: _ =>
      d1.isDigit && d2.isDigit && d3.isDigit && d4.isDigit &&
        d5.isDigit && d6.isDigit && d7.isDigit && d8.isDigit
  | _ => false

/-- Prefix match helper for the unanchored `re.match` uses. -/
def matchAfterPrefix (pre : String) (path : String) (tail : List Char → Bool) : Bool :=
  match stripPrefixChars pre.toList path.toList with
  | some rest => tail rest
  | none => false

/-- Embeds `Learner._normalize_endpoint`: first matching rule wins. -/
def normalize_endpoint (path : String) : String :=
  if matchAfterPrefix "/api/states/" path entityTail then
    "/api/states/{entity_id}"
  else if matchAfterPrefix "/api/services/" path servicesTail then
    "/api/services/{domain}/{service}"
  else if matchAfterPrefix "/api/camera_proxy/" path entityTail then
    "/api/camera_proxy/{entity_id}"
  else if matchAfterPrefix "/api/history/period/" path datePrefix then
    "/api/history/period/{timestamp}"
  else if matchAfterPrefix "/api/logbook/" path datePrefix then
    "/api/logbook/{timestamp}"
  else path

/-! ## WebSocket filter (ws_filter.py) -/

namespace WebSocketFilter

/-- Embeds `ENTITY_LIST_TYPES`. -/
def ENTITY_LIST_TYPES : List String :=
  ["get_states", "config/entity_registry/list", "config/entity_registry/list_for_display"]

/-- Embeds `DEVICE_LIST_TYPES`. -/
def DEVICE_LIST_TYPES : List String := ["config/device_registry/list"]

/-- Embeds `AREA_LIST_TYPES`. -/
def AREA_LIST_TYPES : List String := ["config/area_registry/list"]

/-- Embeds `FLOOR_LIST_TYPES`. -/
def FLOOR_LIST_TYPES : List String := ["config/floor_registry/list"]

/-- Embeds `ENTITY_SUBSCRIPTION_TYPES`. -/
def ENTITY_SUBSCRIPTION_TYPES : List String := ["subscribe_entities"]

/-- Embeds `BLOCKED_MESSAGE_TYPES`. -/
def BLOCKED_MESSAGE_TYPES : List String :=
  ["render_template", "fire_event", "execute_script", "subscribe_trigger", "intent/handle"]

/-- A compiled blocked-pattern regex: all nine are `^literal` or
`^literal$`. -/
inductive BlockPat where
  | pre (lit : String)
  | anchored (lit : String)
deriving DecidableEq, Repr

/-- Embeds `re.match` of a compiled blocked pattern: `^literal` is a prefix
test; `^literal$` also accepts one trailing newline (Python `$`). -/
def BlockPat.matches : BlockPat → String → Bool
  | .pre lit, t => strStartsWith t lit
  | .anchored lit, t => t == lit || t == lit ++ "\n"

/-- Embeds `BLOCKED_MESSAGE_PATTERNS`, in source order. -/
def BLOCKED_MESSAGE_PATTERNS : List BlockPat :=
  [ .pre "config/automation/"
  , .pre "config/script/"
  , .pre "config/scene/"
  , .pre "config_entries/"
  , .pre "hassio/"
  , .pre "backup/"
  , .anchored "auth/sign_path"
  , .pre "auth/refresh_token"
  , .pre "auth/delete_refresh_token" ]

/-- Embeds `ALLOWED_MESSAGE_TYPES`. -/
def ALLOWED_MESSAGE_TYPES : List String :=
  ["auth/current_user", "lovelace/config", "lovelace/resources"]

/-- Embeds `BLOCKED_SERVICES`. -/
def BLOCKED_SERVICES : List (String × String) :=
  [ ("homeassistant", "restart")
  , ("homeassistant", "stop")
  , ("homeassistant", "reload_all")
  , ("homeassistant", "reload_core_config")
  , ("homeassistant", "reload_config_entry")
  , ("homeassistant", "set_location")
  , ("automation", "trigger")
  , ("automation", "reload")
  , ("automation", "turn_on")
  , ("automation", "turn_off")
  , ("automation", "toggle")
  , ("script", "reload")
  , ("script", "turn_on")
  , ("script", "turn_off")
  , ("script", "toggle")
  , ("scene", "reload")
  , ("scene", "apply")
  , ("scene", "create")
  , ("input_boolean", "reload")
  , ("input_number", "reload")
  , ("input_select", "reload")
  , ("input_text", "reload")
  , ("input_datetime", "reload")
  , ("input_button", "reload")
  , ("shell_command", "*")
  , ("python_script", "*")
  , ("pyscript", "*")
  , ("rest_command", "*")
  , ("notify", "*")
  , ("persistent_notification", "create")
  , ("system_log", "clear")
  , ("recorder", "purge")
  , ("recorder", "purge_entities")
  , ("recorder", "disable")
  , ("recorder", "enable")
  , ("logger", "set_level")
  , ("logger", "set_default_level") ]

/-- Embeds `ENTITY_CONTROLLED_DOMAINS`. -/
def ENTITY_CONTROLLED_DOMAINS : List String :=
  [ "light", "switch", "cover", "fan", "climate", "media_player", "vacuum"
  , "lock", "alarm_control_panel", "camera", "humidifier", "water_heater"
  , "remote", "button", "number", "select", "siren", "text", "valve"
  , "lawn_mower", "update" ]

/-- Embeds `ALLOWED_EVENT_TYPES`. -/
def ALLOWED_EVENT_TYPES : List String :=
  [ "state_changed", "component_loaded", "service_registered", "service_removed"
  , "themes_updated", "panels_updated", "lovelace_updated", "core_config_updated"
  , "entity_registry_updated", "device_registry_updated", "area_registry_updated"
  , "floor_registry_updated", "label_registry_updated"
  , "repairs_issue_registry_updated" ]

/-- The filter's `self`: the whitelist plus the two per-connection maps.
`_pending_requests` stores the tracked request-type string per id (ids
are arbitrary json values, compared as Python would); keys appear at most
once. -/
structure FilterState where
  whitelist : WhitelistConfig
  pending_requests : List (Json × String) := []
  entity_subscriptions : List Json := []
deriving DecidableEq, Repr

/-- Python set/dict key membership of a json value; raises `TypeError`
for unhashable keys. -/
def pyKeyMem (k : Json) (ks : List Json) : Except Unit Bool :=
  if k.hashable then pure (decide (k ∈ ks)) else throw ()

/-- Embeds `d[k] = v` on the pending-requests dict. -/
def dictInsert (l : List (Json × String)) (k : Json) (v : String) :
    List (Json × String) :=
  if l.any (fun p => p.1 = k) then
    l.map (fun p => if p.1 = k then (k, v) else p)
  else l ++ [(k, v)]

/-- Membership of a json string value in a Python set/list of strings. -/
def memStrSet (j : Json) (ss : List String) : Bool :=
  match j with
  | .str s => decide (s ∈ ss)
  | _ => false

/-- Embeds `_is_message_type_blocked` on an actual string. -/
def is_message_type_blocked (wl : WhitelistConfig) (msg_type : String) : Bool :=
  if msg_type ∈ wl.allowed_ws_types then false
  else if msg_type ∈ ALLOWED_MESSAGE_TYPES then false
  else if msg_type ∈ BLOCKED_MESSAGE_TYPES then true
  else BLOCKED_MESSAGE_PATTERNS.any (fun p => p.matches msg_type)

/-- Embeds `_is_message_type_blocked` on a json value: the membership tests see
only strings in the three string collections, and `pattern.match` raises
`TypeError` on a non-string. -/
def is_message_type_blockedJ (wl : WhitelistConfig) (msg_type : Json) :
    Except Unit Bool :=
  match msg_type with
  | .str s => pure (is_message_type_blocked wl s)
  | _ => throw ()

/-- Embeds `_is_event_type_allowed` (total: set memberships only). -/
def is_event_type_allowedJ (wl : WhitelistConfig) (event_type : Json) : Bool :=
  memStrSet event_type ALLOWED_EVENT_TYPES ||
    memStrSet event_type wl.allowed_event_types

/-- Embeds `_is_service_blocked` (total: string formatting plus memberships). -/
def is_service_blockedJ (wl : WhitelistConfig) (domain service : Json) : Bool :=
  if (pyStr domain ++ "." ++ pyStr service) ∈ wl.allowed_services then false
  else if (pyStr domain ++ ".*") ∈ wl.allowed_services then false
  else if (match domain, service with
           | .str d, .str s => decide ((d, s) ∈ BLOCKED_SERVICES)
           | _, _ => false) then true
  else if (match domain with
           | .str d => decide ((d, "*") ∈ BLOCKED_SERVICES)
           | _ => false) then true
  else false

/-- Embeds `_extract_ids_from_target`: harvest entity/device/area ids from
`service_data` and `target` (strings or lists of strings). -/
def extract_ids_from_target (kvs : List (String × Json)) :
    List String × List String × List String :=
  let harvest : Json → String → List String := fun container key =>
    match container with
    | .obj c =>
        (match jget c key with
         | .str s => [s]
         | .arr xs => xs.filterMap (fun x => match x with | .str s => some s | _ => none)
         | _ => [])
    | _ => []
  let fromField : String → List String × List String × List String := fun field =>
    let container := jgetD kvs field (.obj [])
    match container with
    | .obj _ =>
        (harvest container "entity_id", harvest container "device_id",
          harvest container "area_id")
    | _ => ([], [], [])
  let (e1, d1, a1) := fromField "service_data"
  let (e2, d2, a2) := fromField "target"
  (e1 ++ e2, d1 ++ d2, a1 ++ a2)

/-- Embeds `_create_error_response` as the json value that is serialized. -/
def create_error_response (msg_id : Json) (message : String) : Json :=
  .obj
    [ ("id", msg_id)
    , ("type", .str "result")
    , ("success", .bool false)
    , ("error", .obj [("code", .str "not_allowed"), ("message", .str message)]) ]

/-- One response-tracking step:
`if msg_type in TYPES and msg_id is not None: self._pending_requests[msg_id] = msg_type`
(the dict write raises `TypeError` on an unhashable id). -/
def trackPending (st : FilterState) (msg_type msg_id : Json) (types : List String) :
    Except Unit FilterState :=
  if memStrSet msg_type types && !(msg_id == Json.null) then
    if msg_id.hashable then
      pure { st with
        pending_requests :=
          dictInsert st.pending_requests msg_id
            (match msg_type with | .str s => s | _ => "") }
    else throw ()
  else pure st

/-- Embeds `self._entity_subscriptions.add(msg_id)` step for subscription
types. -/
def trackSubscription (st : FilterState) (msg_type msg_id : Json) :
    Except Unit FilterState :=
  if memStrSet msg_type ENTITY_SUBSCRIPTION_TYPES && !(msg_id == Json.null) then
    if msg_id.hashable then
      pure { st with
        entity_subscriptions :=
          if msg_id ∈ st.entity_subscriptions then st.entity_subscriptions
          else st.entity_subscriptions ++ [msg_id] }
    else throw ()
  else pure st

/-- Embeds `is_entity_allowed` applied to an arbitrary json value, as the
responses do: a non-string raises `TypeError` inside `fnmatch` — unless
the entity list is empty, in which case the loop never runs. -/
def is_entity_allowedJ (wl : WhitelistConfig) (j : Json) : Except Unit Bool :=
  match j with
  | .str s => pure (wl.is_entity_allowed s)
  | _ => if wl.entities.isEmpty then pure false else throw ()

/-- The `call_service` section of `filter_client_message` (everything
after the tracking steps).  This section only reads the whitelist and
never raises: every identifier it inspects has already been filtered to
strings, so it is a total function of the whitelist and the message. -/
def filterCallService (wl : WhitelistConfig) (kvs : List (String × Json)) (msg_id : Json) :
    Bool × Option Json :=
  let domain := jgetD kvs "domain" (.str "")
  let service := jgetD kvs "service" (.str "")
  if is_service_blockedJ wl domain service then
    (false, some (create_error_response msg_id
      ("Service not allowed: " ++ pyStr domain ++ "." ++ pyStr service)))
  else
    let (entities, devices, areas) := extract_ids_from_target kvs
    match entities.find? (fun e => !wl.is_entity_allowed e) with
    | some e =>
        (false, some (create_error_response msg_id ("Entity not in whitelist: " ++ e)))
    | none =>
      match devices.find? (fun d => !wl.is_device_allowed d) with
      | some d =>
          (false, some (create_error_response msg_id ("Device not in whitelist: " ++ d)))
      | none =>
        match areas.find? (fun a => !wl.is_area_allowed a) with
        | some a =>
            (false, some (create_error_response msg_id ("Area not in whitelist: " ++ a)))
        | none =>
            if memStrSet domain ENTITY_CONTROLLED_DOMAINS &&
                entities.isEmpty && devices.isEmpty && areas.isEmpty then
              (false, some (create_error_response msg_id
                ("Service " ++ pyStr domain ++ "." ++ pyStr service ++
                  " requires explicit targets")))
            else (true, none)

/-- Embeds `if msg_type and self._is_message_type_blocked(msg_type)`'s condition:
falsy types short-circuit past the gate. -/
def messageTypeGate (wl : WhitelistConfig) (msg_type : Json) : Except Unit Bool :=
  if msg_type.pyTruthy then is_message_type_blockedJ wl msg_type else pure false

/-- Embeds `filter_client_message`.  The input is the outcome of `json.loads`
(`none` models a `JSONDecodeError`); the result is the updated filter
state, the allowed flag, and the error frame (as a json value, in place
of its `json.dumps` text). -/
def filter_client_message (st : FilterState) (parsed : Option Json) :
    Except Unit (FilterState × Bool × Option Json) := do
  match parsed with
  | none => pure (st, true, none)
  | some data => do
    let msg_type ← pyGet data "type"
    let msg_id ← pyGet data "id"
    let blocked ← messageTypeGate st.whitelist msg_type
    if blocked then
      pure (st, false, some (create_error_response msg_id
        ("Message type not allowed: " ++ pyStr msg_type)))
    else if msg_type == Json.str "subscribe_events" &&
        jget (match data with | .obj kvs => kvs | _ => []) "event_type" == Json.null then
      pure (st, false, some (create_error_response msg_id
        "subscribe_events requires event_type parameter"))
    else if msg_type == Json.str "subscribe_events" &&
        !is_event_type_allowedJ st.whitelist
          (jget (match data with | .obj kvs => kvs | _ => []) "event_type") then
      pure (st, false, some (create_error_response msg_id
        ("Event type not allowed: " ++
          pyStr (jget (match data with | .obj kvs => kvs | _ => []) "event_type"))))
    else do
      let st1 ← trackPending st msg_type msg_id ENTITY_LIST_TYPES
      let st2 ← trackPending st1 msg_type msg_id DEVICE_LIST_TYPES
      let st3 ← trackPending st2 msg_type msg_id AREA_LIST_TYPES
      let st4 ← trackPending st3 msg_type msg_id FLOOR_LIST_TYPES
      let st5 ← trackSubscription st4 msg_type msg_id
      if !(msg_type == Json.str "call_service") then
        pure (st5, true, none)
      else
        pure (st5, filterCallService st5.whitelist
          (match data with | .obj kvs => kvs | _ => []) msg_id)

/-- Embeds `_filter_entity_list`: keep dict items whose truthy `entity_id` is
allowed; non-dict items are skipped. -/
def filter_entity_list (wl : WhitelistConfig) : List Json → Except Unit (List Json)
  | [] => pure []
  | item :: rest => do
      let keep ←
        match item with
        | .obj kvs =>
            let eid := jget kvs "entity_id"
            if eid.pyTruthy then is_entity_allowedJ wl eid else pure false
        | _ => pure false
      let tail ← filter_entity_list wl rest
      pure (if keep then item :: tail else tail)

/-- Embeds `is_device_allowed` on a json value (same `fnmatch` behaviour as
entities). -/
def is_device_allowedJ (wl : WhitelistConfig) (j : Json) : Except Unit Bool :=
  match j with
  | .str s => pure (wl.is_device_allowed s)
  | _ => if wl.devices.isEmpty then pure false else throw ()

/-- Embeds `is_area_allowed` on a json value. -/
def is_area_allowedJ (wl : WhitelistConfig) (j : Json) : Except Unit Bool :=
  match j with
  | .str s => pure (wl.is_area_allowed s)
  | _ => if wl.areas.isEmpty then pure false else throw ()

/-- Embeds `_filter_device_list` (key `id`). -/
def filter_device_list (wl : WhitelistConfig) : List Json → Except Unit (List Json)
  | [] => pure []
  | item :: rest => do
      let keep ←
        match item with
        | .obj kvs =>
            let did := jget kvs "id"
            if did.pyTruthy then is_device_allowedJ wl did else pure false
        | _ => pure false
      let tail ← filter_device_list wl rest
      pure (if keep then item :: tail else tail)

/-- Embeds `_filter_area_list` (key `area_id`). -/
def filter_area_list (wl : WhitelistConfig) : List Json → Except Unit (List Json)
  | [] => pure []
  | item :: rest => do
      let keep ←
        match item with
        | .obj kvs =>
            let aid := jget kvs "area_id"
            if aid.pyTruthy then is_area_allowedJ wl aid else pure false
        | _ => pure false
      let tail ← filter_area_list wl rest
      pure (if keep then item :: tail else tail)

/-- Embeds `_filter_floor_list`: empty when no areas are whitelisted, otherwise
pass everything through. -/
def filter_floor_list (wl : WhitelistConfig) (result : List Json) : List Json :=
  if wl.areas.isEmpty then [] else result

/-- The removals filter inside `_filter_subscribe_entities_event`
(`[eid for eid in original if self.whitelist.is_entity_allowed(eid)]`). -/
def filterRemovals (wl : WhitelistConfig) : List Json → Except Unit (List Json)
  | [] => pure []
  | eid :: rest => do
      let keep ← is_entity_allowedJ wl eid
      let tail ← filterRemovals wl rest
      pure (if keep then eid :: tail else tail)

/-- One `a`/`c` block of `_filter_subscribe_entities_event`:
`if key in event and isinstance(event[key], dict)`, then the dict
comprehension filtered on allowed keys.  `none` when the block
contributes nothing. -/
def fseeDictPart (wl : WhitelistConfig) (event : Json) (key : String) :
    Except Unit (Option (List (String × Json))) := do
  let present ← pyContains key event
  if present then do
    let v ← pyIndex event key
    match v with
    | .obj m => pure (some (m.filter (fun p => wl.is_entity_allowed p.1)))
    | _ => pure none
  else pure none

/-- The `r` block (a list filtered elementwise). -/
def fseeListPart (wl : WhitelistConfig) (event : Json) :
    Except Unit (Option (List Json)) := do
  let present ← pyContains "r" event
  if present then do
    let v ← pyIndex event "r"
    match v with
    | .arr l => do
        let fl ← filterRemovals wl l
        pure (some fl)
    | _ => pure none
  else pure none

/-- Embeds `_filter_subscribe_entities_event`: build the filtered event from the
non-empty filtered sub-containers (in the order `a`, `c`, `r`); `none`
when everything is empty. -/
def filter_subscribe_entities_event (wl : WhitelistConfig) (event : Json) :
    Except Unit (Option Json) := do
  let aPart ← fseeDictPart wl event "a"
  let cPart ← fseeDictPart wl event "c"
  let rPart ← fseeListPart wl event
  let fields : List (String × Json) :=
    (match aPart with
     | some l => if l.isEmpty then [] else [("a", Json.obj l)]
     | none => []) ++
    (match cPart with
     | some l => if l.isEmpty then [] else [("c", Json.obj l)]
     | none => []) ++
    (match rPart with
     | some l => if l.isEmpty then [] else [("r", Json.arr l)]
     | none => [])
  pure (if fields.isEmpty then none else some (Json.obj fields))

/-- Result of `_filter_single_message`: dropped, returned unchanged (the
same object), or a fresh dict. -/
inductive SingleRes where
  | drop
  | same
  | changed (j : Json)
deriving DecidableEq, Repr

/-- Embeds `msg_type == "result" and msg_id in self._pending_requests` (the
membership check runs only for result frames). -/
def resultTracked (st : FilterState) (msg_type msg_id : Json) : Except Unit Bool :=
  if msg_type == Json.str "result" then pyKeyMem msg_id (st.pending_requests.map Prod.fst)
  else pure false

/-- The request-type dispatch of the tracked-result list filter. -/
def dispatchListFilter (wl : WhitelistConfig) (request_type : String) (l : List Json) :
    Except Unit (List Json) :=
  if request_type ∈ DEVICE_LIST_TYPES then filter_device_list wl l
  else if request_type ∈ AREA_LIST_TYPES then filter_area_list wl l
  else if request_type ∈ FLOOR_LIST_TYPES then pure (filter_floor_list wl l)
  else filter_entity_list wl l

/-- Embeds `"a" in event or "c" in event or "r" in event`, short-circuiting. -/
def containsACR (event : Json) : Except Unit Bool := do
  let hasA ← pyContains "a" event
  if hasA then pure true
  else do
    let hasC ← pyContains "c" event
    if hasC then pure true else pyContains "r" event

/-- Embeds `_filter_single_message`. -/
def filter_single_message (st : FilterState) (data : Json) :
    Except Unit (FilterState × SingleRes) := do
  match data with
  | .obj kvs => do
    let msg_type := jget kvs "type"
    let msg_id := jget kvs "id"
    let trackedResult ← resultTracked st msg_type msg_id
    if trackedResult then do
      let request_type := ((st.pending_requests.find? (fun p => p.1 = msg_id)).map Prod.snd).getD ""
      let st' : FilterState :=
        { st with pending_requests := st.pending_requests.filter (fun p => p.1 ≠ msg_id) }
      let result := jget kvs "result"
      match result with
      | .arr l => do
          let filtered ← dispatchListFilter st.whitelist request_type l
          pure (st', .changed (.obj (setKey kvs "result" (.arr filtered))))
      | _ => pure (st', .same)
    else if !(msg_type == Json.str "event") then
      pure (st, .same)
    else do
      let event := jgetD kvs "event" (.obj [])
      let subscribed ← pyKeyMem msg_id st.entity_subscriptions
      if subscribed then do
        let hasACR ← containsACR event
        if hasACR then do
          let fe ← filter_subscribe_entities_event st.whitelist event
          match fe with
          | none => pure (st, .drop)
          | some fev => pure (st, .changed (.obj (setKey kvs "event" fev)))
        else pure (st, .same)
      else do
        let event_type ← pyGet event "event_type"
        if !(event_type == Json.str "state_changed") then pure (st, .same)
        else do
          let event_data := (match event with | .obj ekvs => jgetD ekvs "data" (.obj []) | _ => .obj [])
          let entity_id ← pyGet event_data "entity_id"
          if !entity_id.pyTruthy then pure (st, .same)
          else do
            let allowed ← is_entity_allowedJ st.whitelist entity_id
            if !allowed then pure (st, .drop) else pure (st, .same)
  | _ => throw ()

/-- Result of `filter_server_message`: forward the original text, drop,
or forward the re-serialized json value. -/
inductive ServerRes where
  | forwardOriginal
  | drop
  | forward (j : Json)
deriving DecidableEq, Repr

/-- The batched-array loop of `filter_server_message`: thread the state
through `_filter_single_message`, keep the per-element results and
whether anything changed. -/
def batchLoop (st : FilterState) : List Json → Except Unit (FilterState × List Json × Bool)
  | [] => pure (st, [], false)
  | msg :: rest => do
      let (st1, r) ← filter_single_message st msg
      let (st2, tail, modified) ← batchLoop st1 rest
      match r with
      | .drop => pure (st2, tail, true)
      | .changed j => pure (st2, j :: tail, true)
      | .same => pure (st2, msg :: tail, modified)

/-- Embeds `filter_server_message` (input as the `json.loads` outcome, `none`
for invalid JSON). -/
def filter_server_message (st : FilterState) (parsed : Option Json) :
    Except Unit (FilterState × ServerRes) := do
  match parsed with
  | none => pure (st, .forwardOriginal)
  | some (.arr msgs) => do
      let (st', filtered, modified) ← batchLoop st msgs
      if filtered.isEmpty then pure (st', .drop)
      else if !modified then pure (st', .forwardOriginal)
      else pure (st', .forward (.arr filtered))
  | some data => do
      let (st', r) ← filter_single_message st data
      match r with
      | .drop => pure (st', .drop)
      | .same => pure (st', .forwardOriginal)
      | .changed j => pure (st', .forward j)

end WebSocketFilter

/-! ## Proxy boundary decisions (proxy.py / main.py) -/

/-- What `proxy_request` (main.py) does with a request in limit mode:
deny with a 403 JSON body without contacting the upstream, or forward. -/
inductive HttpAction where
  | deny403 (body : String)
  | forwardUpstream
deriving DecidableEq, Repr

/-- The limit-mode control flow of `proxy_request`. -/
def proxy_request_action (wl : WhitelistConfig) (full_path method : String) : HttpAction :=
  let result := proxy_request_check wl full_path method
  if result.allowed then .forwardUpstream
  else .deny403 ("\x7b\"error\": \"" ++ result.reason ++ "\"\x7d")

namespace WebSocketFilter

/-- What the client→upstream pump (proxy.py) does with one text frame in
limit mode. -/
inductive PumpAction where
  | forwardUpstream
  | replyError (j : Json)
  | replyNothing
deriving DecidableEq, Repr

/-- The limit-mode per-frame decision of the client→upstream pump:
forward iff the filter allowed; otherwise send the error frame (when
present) back to the client and do not forward. -/
def clientPumpAction (st : FilterState) (parsed : Option Json) :
    Except Unit (FilterState × PumpAction) := do
  let (st', allowed, err) ← filter_client_message st parsed
  if allowed then pure (st', .forwardUpstream)
  else
    match err with
    | some e => pure (st', .replyError e)
    | none => pure (st', .replyNothing)

end WebSocketFilter

/-! ## Shared concrete fixtures for the scenario evaluations -/

def emptyWhitelist : WhitelistConfig := {}

/-- Scenario 2's whitelist: endpoints `["/api/history/period/*"]`,
entities `["light.living_room"]` (compiled, as `load` would). -/
def historyWhitelist : WhitelistConfig :=
  WhitelistConfig.compile_endpoint_patterns
    { endpoints := ["/api/history/period/*"], entities := ["light.living_room"] }

/-- Scenario 3/5's whitelist: entities `["light.living_room"]`. -/
def livingRoomWhitelist : WhitelistConfig := { entities := ["light.living_room"] }

def emptyFilterState : WebSocketFilter.FilterState := { whitelist := emptyWhitelist }

def livingRoomState : WebSocketFilter.FilterState := { whitelist := livingRoomWhitelist }

/-- Scenario 5's subscription request. -/
def subscribeMsg5 : Json := .obj [("id", .num 5), ("type", .str "subscribe_entities")]

/-- Scenario 5's upstream delta event. -/
def upstreamEvent5 : Json :=
  .obj [("id", .num 5), ("type", .str "event"),
    ("event", .obj
      [("a", .obj [("light.living_room", .obj [("s", .str "on")]),
                   ("light.bedroom", .obj [("s", .str "off")])]),
       ("c", .obj [("sensor.secret", .obj [("+", .obj [("s", .str "42")])])])])]

/-- Scenario 5's expected client-visible frame. -/
def expectedEvent5 : Json :=
  .obj [("id", .num 5), ("type", .str "event"),
    ("event", .obj [("a", .obj [("light.living_room", .obj [("s", .str "on")])])])]

/-- Scenario 3's request. -/
def callServiceMsg3 : Json :=
  .obj [("id", .num 1), ("type", .str "call_service"),
    ("domain", .str "light"), ("service", .str "turn_on")]

/-- A whitelist using the `allowed_ws_types` override. -/
def overrideWhitelist : WhitelistConfig := { allowed_ws_types := ["render_template"] }

/-- The filter state after scenario 5's subscription request. -/
def subscribedState : WebSocketFilter.FilterState :=
  { whitelist := livingRoomWhitelist, entity_subscriptions := [.num 5] }

/-! # Theorems -/

/-! ## Generic helper lemmas -/

lemma exceptPure_eq_ok {α : Type} (a : α) : (pure a : Except Unit α) = .ok a := rfl

lemma exceptThrow_eq_error {α : Type} : (throw () : Except Unit α) = .error () := rfl

lemma exceptBind_ok {α β : Type} {x : Except Unit α} {f : α → Except Unit β} {b : β}
    (h : (x >>= f) = .ok b) : ∃ a, x = .ok a ∧ f a = .ok b := by
  cases x with
  | ok a => exact ⟨a, rfl, h⟩
  | error e => simp [Bind.bind, Except.bind] at h

lemma mem_insertSorted {x a : String} {l : List String} :
    x ∈ insertSorted a l ↔ x = a ∨ x ∈ l := by
  induction l with
  | nil => simp [insertSorted]
  | cons y ys ih =>
      by_cases hle : a ≤ y
      · simp [insertSorted, hle]
      · simp [insertSorted, hle, ih]
        tauto

lemma mem_pySorted {x : String} {l : List String} :
    x ∈ pySorted l ↔ x ∈ l := by
  induction l with
  | nil => simp [pySorted]
  | cons y ys ih => simp [pySorted, mem_insertSorted, ih]

lemma sorted_insertSorted {a : String} {l : List String}
    (h : l.Sorted (· ≤ ·)) : (insertSorted a l).Sorted (· ≤ ·) := by
  induction l with
  | nil => simp [insertSorted]
  | cons y ys ih =>
      rw [List.sorted_cons] at h
      by_cases hle : a ≤ y
      · rw [insertSorted, if_pos hle, List.sorted_cons]
        refine ⟨fun b hb => ?_, List.sorted_cons.mpr h⟩
        rcases List.mem_cons.mp hb with hb | hb
        · exact hb ▸ hle
        · exact le_trans hle (h.1 b hb)
      · rw [insertSorted, if_neg hle, List.sorted_cons]
        refine ⟨fun b hb => ?_, ih h.2⟩
        rcases mem_insertSorted.mp hb with hb | hb
        · exact hb ▸ le_of_not_le hle
        · exact h.1 b hb

lemma sorted_pySorted (l : List String) : (pySorted l).Sorted (· ≤ ·) := by
  induction l with
  | nil => simp [pySorted]
  | cons y ys ih => exact sorted_insertSorted ih

/-! ## C8: normalizer idempotence -/

lemma normalize_endpoint_eq (p : String) :
    normalize_endpoint p =
      (if matchAfterPrefix "/api/states/" p entityTail then
        "/api/states/{entity_id}"
      else if matchAfterPrefix "/api/services/" p servicesTail then
        "/api/services/{domain}/{service}"
      else if matchAfterPrefix "/api/camera_proxy/" p entityTail then
        "/api/camera_proxy/{entity_id}"
      else if matchAfterPrefix "/api/history/period/" p datePrefix then
        "/api/history/period/{timestamp}"
      else if matchAfterPrefix "/api/logbook/" p datePrefix then
        "/api/logbook/{timestamp}"
      else p) := rfl

/-- C8: `_normalize_endpoint` is idempotent on every path, and each of
the five output templates is a fixed point of the ordered
first-match-wins ruleset. -/
theorem c8_normalizer_idempotent :
    (∀ p : String, normalize_endpoint (normalize_endpoint p) = normalize_endpoint p)
    ∧ normalize_endpoint "/api/states/{entity_id}" = "/api/states/{entity_id}"
    ∧ normalize_endpoint "/api/services/{domain}/{service}" = "/api/services/{domain}/{service}"
    ∧ normalize_endpoint "/api/camera_proxy/{entity_id}" = "/api/camera_proxy/{entity_id}"
    ∧ normalize_endpoint "/api/history/period/{timestamp}" = "/api/history/period/{timestamp}"
    ∧ normalize_endpoint "/api/logbook/{timestamp}" = "/api/logbook/{timestamp}" := by
  have fp1 : normalize_endpoint "/api/states/{entity_id}" = "/api/states/{entity_id}" := by
    simp [normalize_endpoint, matchAfterPrefix, stripPrefixChars, entityTail, servicesTail,
      datePrefix, isLowerU, isLowerDigitU]
  have fp2 : normalize_endpoint "/api/services/{domain}/{service}" =
      "/api/services/{domain}/{service}" := by
    simp [normalize_endpoint, matchAfterPrefix, stripPrefixChars, entityTail, servicesTail,
      datePrefix, isLowerU, isLowerDigitU]
  have fp3 : normalize_endpoint "/api/camera_proxy/{entity_id}" =
      "/api/camera_proxy/{entity_id}" := by
    simp [normalize_endpoint, matchAfterPrefix, stripPrefixChars, entityTail, servicesTail,
      datePrefix, isLowerU, isLowerDigitU]
  have fp4 : normalize_endpoint "/api/history/period/{timestamp}" =
      "/api/history/period/{timestamp}" := by
    simp [normalize_endpoint, matchAfterPrefix, stripPrefixChars, entityTail, servicesTail,
      datePrefix, isLowerU, isLowerDigitU]
  have fp5 : normalize_endpoint "/api/logbook/{timestamp}" =
      "/api/logbook/{timestamp}" := by
    simp [normalize_endpoint, matchAfterPrefix, stripPrefixChars, entityTail, servicesTail,
      datePrefix, isLowerU, isLowerDigitU]
  refine ⟨fun p => ?_, fp1, fp2, fp3, fp4, fp5⟩
  by_cases h1 : matchAfterPrefix "/api/states/" p entityTail
  · rw [show normalize_endpoint p = "/api/states/{entity_id}" from by
      rw [normalize_endpoint_eq, if_pos h1]]
    exact fp1
  by_cases h2 : matchAfterPrefix "/api/services/" p servicesTail
  · rw [show normalize_endpoint p = "/api/services/{domain}/{service}" from by
      rw [normalize_endpoint_eq, if_neg h1, if_pos h2]]
    exact fp2
  by_cases h3 : matchAfterPrefix "/api/camera_proxy/" p entityTail
  · rw [show normalize_endpoint p = "/api/camera_proxy/{entity_id}" from by
      rw [normalize_endpoint_eq, if_neg h1, if_neg h2, if_pos h3]]
    exact fp3
  by_cases h4 : matchAfterPrefix "/api/history/period/" p datePrefix
  · rw [show normalize_endpoint p = "/api/history/period/{timestamp}" from by
      rw [normalize_endpoint_eq, if_neg h1, if_neg h2, if_neg h3, if_pos h4]]
    exact fp4
  by_cases h5 : matchAfterPrefix "/api/logbook/" p datePrefix
  · rw [show normalize_endpoint p = "/api/logbook/{timestamp}" from by
      rw [normalize_endpoint_eq, if_neg h1, if_neg h2, if_neg h3, if_neg h4, if_pos h5]]
    exact fp5
  · have hp : normalize_endpoint p = p := by
      rw [normalize_endpoint_eq, if_neg h1, if_neg h2, if_neg h3, if_neg h4, if_neg h5]
    rw [hp, hp]

/-! ## C1: the end-to-end history-query gate -/

set_option maxHeartbeats 1000000 in
/-- C1 (failing-input evaluation): `Limiter.check_request`, given the
query string, denies scenario 2 naming `light.bedroom`; but
`proxy_request` (main.py) calls `check_request` without the query, so the
same request is allowed end-to-end and forwarded upstream, contradicting
the claimed 403. -/
theorem c1_history_query_gate :
    (check_request historyWhitelist "/api/history/period/2024-01-01" "GET"
        "filter_entity_id=light.living_room,light.bedroom" =
      { allowed := false, reason := "Entity not in whitelist: light.bedroom" })
    ∧ (proxy_request_check historyWhitelist "/api/history/period/2024-01-01" "GET" =
      { allowed := true, reason := "Allowed by whitelist" })
    ∧ (proxy_request_action historyWhitelist "/api/history/period/2024-01-01" "GET" =
      .forwardUpstream) := by
  refine ⟨?_, ?_, ?_⟩ <;>
    simp [proxy_request_action, proxy_request_check, check_request,
      check_request.checkQueryEntities, historyWhitelist, extract_entities_from_query,
      parseQsGet, parseQsl, pySplitOn, pySplitOn.go, unquotePlus, unquotePlusChars, pyStrip,
      WhitelistConfig.is_endpoint_allowed, WhitelistConfig.is_entity_allowed,
      WhitelistConfig.compile_endpoint_patterns, compilePattern, substBraces, dropBrace,
      dropBraceAux, epTokenize, epMatch, epParamRest, extract_entity_from_path,
      stripPrefixChars, entityTail, fnmatch, globMatch, hexVal, strStartsWith]

/-! ## C5: filter totality -/

/-- C5 (counterexample): on the valid-JSON input `5` — whose top level is
not an object — both filters raise (`AttributeError` from `.get` on an
`int`), instead of returning a result. -/
theorem c5_totality_counterexample :
    WebSocketFilter.filter_client_message emptyFilterState (some (.num 5)) = .error ()
    ∧ WebSocketFilter.filter_server_message emptyFilterState (some (.num 5)) = .error () := by
  exact ⟨rfl, rfl⟩

/-- C5 (amended): inputs that are not valid JSON are forwarded untouched
by both filters with no exception and no state change; but on valid JSON
whose top level is not an object the filters raise `AttributeError`
(caught by the proxy pump, so nothing crosses the proxy boundary). -/
theorem c5_filter_totality :
    (∀ st : WebSocketFilter.FilterState,
      WebSocketFilter.filter_client_message st none = .ok (st, true, none))
    ∧ (∀ st : WebSocketFilter.FilterState,
      WebSocketFilter.filter_server_message st none = .ok (st, .forwardOriginal))
    ∧ WebSocketFilter.filter_client_message emptyFilterState (some (.num 5)) = .error ()
    ∧ WebSocketFilter.filter_server_message emptyFilterState (some (.num 5)) = .error () := by
  exact ⟨fun st => rfl, fun st => rfl, rfl, rfl⟩

/-! ## C6: save/load round trip -/

/-- C6 (counterexample): `save` never writes the `allowed_ws_types` key
(nor the other two override keys), so saving a whitelist that has
`allowed_ws_types = ["render_template"]` into an empty document and
loading it back loses the entry — the round trip is not set-equal on all
seven keys. -/
theorem c6_roundtrip_counterexample :
    (WhitelistConfig.load (overrideWhitelist.save {})).allowed_ws_types = []
    ∧ overrideWhitelist.allowed_ws_types = ["render_template"] := by
  exact ⟨rfl, rfl⟩

/-- C6 (amended): the save/load round trip from an empty document is
set-equal on the four persisted keys (endpoints, entities, devices,
areas); newly added items are appended sorted; the three override keys
(`allowed_ws_types`, `allowed_event_types`, `allowed_services`) are never
written by `save`, so loading returns whatever the existing document
held — empty, for the empty document. -/
theorem c6_save_load_roundtrip :
    (∀ (wl : WhitelistConfig) (x : String),
      (x ∈ (WhitelistConfig.load (wl.save {})).endpoints ↔ x ∈ wl.endpoints)
      ∧ (x ∈ (WhitelistConfig.load (wl.save {})).entities ↔ x ∈ wl.entities)
      ∧ (x ∈ (WhitelistConfig.load (wl.save {})).devices ↔ x ∈ wl.devices)
      ∧ (x ∈ (WhitelistConfig.load (wl.save {})).areas ↔ x ∈ wl.areas))
    ∧ (∀ wl : WhitelistConfig,
      (WhitelistConfig.load (wl.save {})).allowed_ws_types = []
      ∧ (WhitelistConfig.load (wl.save {})).allowed_event_types = []
      ∧ (WhitelistConfig.load (wl.save {})).allowed_services = [])
    ∧ (∀ (wl : WhitelistConfig) (doc : YamlDoc),
      (wl.save doc).allowed_ws_types = doc.allowed_ws_types
      ∧ (wl.save doc).allowed_event_types = doc.allowed_event_types
      ∧ (wl.save doc).allowed_services = doc.allowed_services)
    ∧ (∀ l : List String, (pySorted l).Sorted (· ≤ ·)) := by
  have hmem : ∀ (items : List String) (x : String),
      x ∈ (appendItems none items).getD [] ↔ x ∈ items := by
    intro items x
    simp only [appendItems, Option.getD_none]
    have hfilter : items.filter (fun i => decide (i ∉ ([] : List String))) = items := by
      simp
    rw [hfilter]
    by_cases hempty : items.isEmpty
    · rw [if_pos hempty]
      rw [List.isEmpty_iff] at hempty
      simp [hempty]
    · rw [if_neg hempty]
      simp [mem_pySorted]
  refine ⟨fun wl x => ?_, fun wl => ⟨rfl, rfl, rfl⟩, fun wl doc => ⟨rfl, rfl, rfl⟩,
    sorted_pySorted⟩
  exact ⟨hmem wl.endpoints x, hmem wl.entities x, hmem wl.devices x, hmem wl.areas x⟩

/-! ## C7: idempotent growth and containment -/

/-- C7: each add operation is idempotent (a second identical call
returns "not appended" and the same state), and whenever the membership
query already accepts `x` — or `x` is literally present — the add
operation returns `false` and leaves the whole configuration
unchanged. -/
theorem c7_add_idempotent_containment :
    (∀ (wl : WhitelistConfig) (x : String),
      (wl.add_endpoint x).1.add_endpoint x = ((wl.add_endpoint x).1, false))
    ∧ (∀ (wl : WhitelistConfig) (x : String),
      (wl.add_entity x).1.add_entity x = ((wl.add_entity x).1, false))
    ∧ (∀ (wl : WhitelistConfig) (x : String),
      (wl.add_device x).1.add_device x = ((wl.add_device x).1, false))
    ∧ (∀ (wl : WhitelistConfig) (x : String),
      (wl.add_area x).1.add_area x = ((wl.add_area x).1, false))
    ∧ (∀ (wl : WhitelistConfig) (x : String),
      x ∈ wl.endpoints ∨ wl.is_endpoint_allowed x = true → wl.add_endpoint x = (wl, false))
    ∧ (∀ (wl : WhitelistConfig) (x : String),
      x ∈ wl.entities ∨ wl.is_entity_allowed x = true → wl.add_entity x = (wl, false))
    ∧ (∀ (wl : WhitelistConfig) (x : String),
      x ∈ wl.devices ∨ wl.is_device_allowed x = true → wl.add_device x = (wl, false))
    ∧ (∀ (wl : WhitelistConfig) (x : String),
      x ∈ wl.areas ∨ wl.is_area_allowed x = true → wl.add_area x = (wl, false)) := by
  refine ⟨?_, ?_, ?_, ?_, ?_, ?_, ?_, ?_⟩
  · intro wl x
    by_cases h1 : x ∈ wl.endpoints
    · simp [WhitelistConfig.add_endpoint, h1]
    · by_cases h2 : wl.is_endpoint_allowed x
      · simp [WhitelistConfig.add_endpoint, h1, h2]
      · simp only [WhitelistConfig.add_endpoint, h1, h2, if_false, if_neg, ite_false]
        simp [WhitelistConfig.compile_endpoint_patterns]
  · intro wl x
    by_cases h : x ∈ wl.entities ∨ wl.is_entity_allowed x
    · simp [WhitelistConfig.add_entity, h]
    · simp only [WhitelistConfig.add_entity, h, if_false, ite_false]
      simp [WhitelistConfig.add_entity]
  · intro wl x
    by_cases h : x ∈ wl.devices ∨ wl.is_device_allowed x
    · simp [WhitelistConfig.add_device, h]
    · simp only [WhitelistConfig.add_device, h, if_false, ite_false]
      simp [WhitelistConfig.add_device]
  · intro wl x
    by_cases h : x ∈ wl.areas ∨ wl.is_area_allowed x
    · simp [WhitelistConfig.add_area, h]
    · simp only [WhitelistConfig.add_area, h, if_false, ite_false]
      simp [WhitelistConfig.add_area]
  · intro wl x h
    rcases h with h | h
    · simp [WhitelistConfig.add_endpoint, h]
    · by_cases h1 : x ∈ wl.endpoints
      · simp [WhitelistConfig.add_endpoint, h1]
      · simp [WhitelistConfig.add_endpoint, h1, h]
  · intro wl x h
    have : x ∈ wl.entities ∨ wl.is_entity_allowed x = true := h
    simp [WhitelistConfig.add_entity, this]
  · intro wl x h
    simp [WhitelistConfig.add_device, h]
  · intro wl x h
    simp [WhitelistConfig.add_area, h]

/-- C7 witness: containment at a concrete input — `light.bedroom` is
glob-covered by `light.*`, so `add_entity` does not append. -/
theorem c7_witness :
    WhitelistConfig.add_entity { entities := ["light.*"] } "light.bedroom" =
      ({ entities := ["light.*"] }, false) :=
  c7_add_idempotent_containment.2.2.2.2.2.1 { entities := ["light.*"] } "light.bedroom"
    (Or.inr (by simp [WhitelistConfig.is_entity_allowed, fnmatch, globMatch]))

/-! ## C10: untyped frames bypass every gate -/

/-- C10: a client frame that parses to an object with no `type` key (or
`type: null` — indistinguishable after `json.loads`) passes every gate:
it is allowed, no error is produced, and no tracking state changes. -/
theorem c10_untyped_frames_bypass
    (st : WebSocketFilter.FilterState) (kvs : List (String × Json))
    (htype : jget kvs "type" = Json.null) :
    WebSocketFilter.filter_client_message st (some (.obj kvs)) = .ok (st, true, none) := by
  simp [WebSocketFilter.filter_client_message, WebSocketFilter.messageTypeGate, pyGet,
    htype, Json.pyTruthy, WebSocketFilter.trackPending, WebSocketFilter.trackSubscription,
    WebSocketFilter.memStrSet]
  rfl

/-- C10 witness: the concrete frame `{"id": 1, "data": "something"}`. -/
theorem c10_witness :
    WebSocketFilter.filter_client_message emptyFilterState
      (some (.obj [("id", .num 1), ("data", .str "something")])) =
      .ok (emptyFilterState, true, none) :=
  c10_untyped_frames_bypass emptyFilterState [("id", .num 1), ("data", .str "something")]
    (by rfl)

/-! ## C3: message-type gate precedence -/

/-- C3 (counterexample): the compiled pattern `^auth/sign_path$` matches
not only the exact string — Python's `$` also accepts one trailing
newline — so `"auth/sign_path\n"` is blocked although the claim's
"matches only that exact string" would leave it unblocked. -/
theorem c3_sign_path_counterexample :
    WebSocketFilter.is_message_type_blocked emptyWhitelist "auth/sign_path\n" = true
    ∧ WebSocketFilter.BlockPat.matches (.anchored "auth/sign_path") "auth/sign_path\n" = true
    ∧ "auth/sign_path\n" ≠ "auth/sign_path" := by
  refine ⟨by decide, by decide, by decide⟩

/-- C3 (amended): the gate evaluates in the claimed order —
`allowed_ws_types` override first, then the built-in allowed set (both
overriding every block), then the built-in blocked set, then the blocked
patterns, else unblocked; `auth/sign_path` matches exactly (up to
Python's `$` accepting one trailing newline) while `auth/refresh_token`
and `auth/delete_refresh_token` match as prefixes. -/
theorem c3_message_type_gate :
    (∀ (wl : WhitelistConfig) (t : String), t ∈ wl.allowed_ws_types →
      WebSocketFilter.is_message_type_blocked wl t = false)
    ∧ (∀ (wl : WhitelistConfig) (t : String), t ∈ WebSocketFilter.ALLOWED_MESSAGE_TYPES →
      WebSocketFilter.is_message_type_blocked wl t = false)
    ∧ (∀ (wl : WhitelistConfig) (t : String),
      t ∉ wl.allowed_ws_types → t ∉ WebSocketFilter.ALLOWED_MESSAGE_TYPES →
      t ∈ WebSocketFilter.BLOCKED_MESSAGE_TYPES →
      WebSocketFilter.is_message_type_blocked wl t = true)
    ∧ (∀ (wl : WhitelistConfig) (t : String),
      t ∉ wl.allowed_ws_types → t ∉ WebSocketFilter.ALLOWED_MESSAGE_TYPES →
      t ∉ WebSocketFilter.BLOCKED_MESSAGE_TYPES →
      WebSocketFilter.is_message_type_blocked wl t =
        WebSocketFilter.BLOCKED_MESSAGE_PATTERNS.any (fun p => p.matches t))
    ∧ (∀ t : String,
      (WebSocketFilter.BLOCKED_MESSAGE_PATTERNS.any (fun p => p.matches t) = true ↔
        (strStartsWith t "config/automation/" = true ∨ strStartsWith t "config/script/" = true ∨
         strStartsWith t "config/scene/" = true ∨ strStartsWith t "config_entries/" = true ∨
         strStartsWith t "hassio/" = true ∨ strStartsWith t "backup/" = true ∨
         t = "auth/sign_path" ∨ t = "auth/sign_path\n" ∨
         strStartsWith t "auth/refresh_token" = true ∨
         strStartsWith t "auth/delete_refresh_token" = true)))
    ∧ WebSocketFilter.is_message_type_blocked emptyWhitelist "auth/sign_path" = true
    ∧ WebSocketFilter.is_message_type_blocked emptyWhitelist "auth/sign_path/extra" = false
    ∧ WebSocketFilter.is_message_type_blocked emptyWhitelist "auth/refresh_token_extra" = true
    ∧ WebSocketFilter.is_message_type_blocked emptyWhitelist
        "auth/delete_refresh_token/extra" = true := by
  refine ⟨?_, ?_, ?_, ?_, ?_, by decide, by decide, by decide, by decide⟩
  · intro wl t h
    simp [WebSocketFilter.is_message_type_blocked, h]
  · intro wl t h
    by_cases h1 : t ∈ wl.allowed_ws_types <;>
      simp [WebSocketFilter.is_message_type_blocked, h, h1]
  · intro wl t h1 h2 h3
    simp [WebSocketFilter.is_message_type_blocked, h1, h2, h3]
  · intro wl t h1 h2 h3
    simp [WebSocketFilter.is_message_type_blocked, h1, h2, h3]
  · intro t
    simp [WebSocketFilter.BLOCKED_MESSAGE_PATTERNS, WebSocketFilter.BlockPat.matches]
    tauto

/-- C3 witness: the `allowed_ws_types` override unblocks
`render_template`, which the built-in set blocks. -/
theorem c3_witness :
    WebSocketFilter.is_message_type_blocked overrideWhitelist "render_template" = false :=
  c3_message_type_gate.1 overrideWhitelist "render_template" (by decide)

/-! ## C4: implicit-target rejection -/

lemma call_service_not_blocked (wl : WhitelistConfig) :
    WebSocketFilter.is_message_type_blocked wl "call_service" = false := by
  by_cases h : "call_service" ∈ wl.allowed_ws_types
  · simp [WebSocketFilter.is_message_type_blocked, h]
  · simp [WebSocketFilter.is_message_type_blocked, h]
    exact fun _ => ⟨by decide, by decide⟩

/-- C4: a `call_service` message for an entity-controlled domain whose
service is not blocked and that supplies no entity/device/area targets is
rejected with exactly the claimed error frame (id as-is, `null` when
absent), with no state change; scenario 3 is the concrete instance. -/
theorem c4_implicit_target_rejection :
    (∀ (st : WebSocketFilter.FilterState) (kvs : List (String × Json)) (d s : String),
      jget kvs "type" = Json.str "call_service" →
      jgetD kvs "domain" (.str "") = Json.str d →
      jgetD kvs "service" (.str "") = Json.str s →
      d ∈ WebSocketFilter.ENTITY_CONTROLLED_DOMAINS →
      WebSocketFilter.is_service_blockedJ st.whitelist (.str d) (.str s) = false →
      WebSocketFilter.extract_ids_from_target kvs = ([], [], []) →
      WebSocketFilter.filter_client_message st (some (.obj kvs)) =
        .ok (st, false, some (WebSocketFilter.create_error_response (jget kvs "id")
          ("Service " ++ d ++ "." ++ s ++ " requires explicit targets"))))
    ∧ (WebSocketFilter.filter_client_message livingRoomState (some callServiceMsg3) =
      .ok (livingRoomState, false, some (.obj [("id", .num 1), ("type", .str "result"),
        ("success", .bool false),
        ("error", .obj [("code", .str "not_allowed"),
          ("message", .str "Service light.turn_on requires explicit targets")])])))
    ∧ (WebSocketFilter.clientPumpAction livingRoomState (some callServiceMsg3) =
      .ok (livingRoomState, .replyError (.obj [("id", .num 1), ("type", .str "result"),
        ("success", .bool false),
        ("error", .obj [("code", .str "not_allowed"),
          ("message", .str "Service light.turn_on requires explicit targets")])]))) := by
  refine ⟨?_, rfl, rfl⟩
  intro st kvs d s htype hd hs hdom hblocked htargets
  have hmt := call_service_not_blocked st.whitelist
  have hmg : WebSocketFilter.messageTypeGate st.whitelist (Json.str "call_service") =
      pure false := by
    simp [WebSocketFilter.messageTypeGate, Json.pyTruthy,
      WebSocketFilter.is_message_type_blockedJ, hmt]
  simp [WebSocketFilter.filter_client_message, hmg, pyGet, htype, Json.pyTruthy,
    WebSocketFilter.is_message_type_blockedJ, hmt, WebSocketFilter.trackPending,
    WebSocketFilter.trackSubscription, WebSocketFilter.memStrSet,
    WebSocketFilter.ENTITY_LIST_TYPES, WebSocketFilter.DEVICE_LIST_TYPES,
    WebSocketFilter.AREA_LIST_TYPES, WebSocketFilter.FLOOR_LIST_TYPES,
    WebSocketFilter.ENTITY_SUBSCRIPTION_TYPES, WebSocketFilter.filterCallService,
    hd, hs, hblocked, htargets, pyStr, WebSocketFilter.ENTITY_CONTROLLED_DOMAINS]
  rw [if_pos (by simpa [WebSocketFilter.ENTITY_CONTROLLED_DOMAINS] using hdom)]
  rfl

/-- C4 witness: the universal part applied to scenario 3's message. -/
theorem c4_witness :
    WebSocketFilter.filter_client_message livingRoomState
      (some (.obj [("id", .num 1), ("type", .str "call_service"),
        ("domain", .str "light"), ("service", .str "turn_on")])) =
      .ok (livingRoomState, false, some (WebSocketFilter.create_error_response (.num 1)
        "Service light.turn_on requires explicit targets")) :=
  c4_implicit_target_rejection.1 livingRoomState
    [("id", .num 1), ("type", .str "call_service"),
      ("domain", .str "light"), ("service", .str "turn_on")]
    "light" "turn_on" rfl rfl rfl (by decide) rfl rfl

/-! ## C2: `subscribe_entities` delta-event filtering -/

lemma lookup_some_any {ev : List (String × Json)} {k : String} {v : Json}
    (h : jlookup ev k = some v) : ev.any (fun p => p.1 == k) = true := by
  induction ev with
  | nil => simp [jlookup] at h
  | cons p rest ih =>
      obtain ⟨k2, v2⟩ := p
      by_cases hk : k = k2
      · subst hk
        simp [List.any_cons]
      · have hbeq : (k == k2) = false := by simpa using hk
        simp only [jlookup, List.lookup, hbeq] at h
        have hrest := ih h
        simp [List.any_cons, hrest]

lemma lookup_none_any {ev : List (String × Json)} {k : String}
    (h : jlookup ev k = none) : ev.any (fun p => p.1 == k) = false := by
  induction ev with
  | nil => simp
  | cons p rest ih =>
      obtain ⟨k2, v2⟩ := p
      by_cases hk : k = k2
      · subst hk
        simp [jlookup, List.lookup] at h
      · have hbeq : (k == k2) = false := by simpa using hk
        simp only [jlookup, List.lookup, hbeq] at h
        have hbeq2 : (k2 == k) = false := by
          simp
          exact fun hc => hk hc.symm
        simp [List.any_cons, hbeq2, ih h]

lemma filterRemovals_map_str (wl : WhitelistConfig) (R : List String) :
    WebSocketFilter.filterRemovals wl (R.map Json.str) =
      pure ((R.filter (fun e => wl.is_entity_allowed e)).map Json.str) := by
  induction R with
  | nil => rfl
  | cons r rest ih =>
      simp only [List.map_cons, WebSocketFilter.filterRemovals,
        WebSocketFilter.is_entity_allowedJ, ih]
      by_cases h : wl.is_entity_allowed r
      · simp [h, List.filter_cons]
      · simp [h, List.filter_cons]

lemma fseeDictPart_some (wl : WhitelistConfig) (ev A : List (String × Json)) (key : String)
    (h : jlookup ev key = some (.obj A)) :
    WebSocketFilter.fseeDictPart wl (.obj ev) key =
      pure (some (A.filter (fun p => wl.is_entity_allowed p.1))) := by
  have ha := lookup_some_any h
  simp [WebSocketFilter.fseeDictPart, pyContains, ha, pyIndex, h]

lemma fseeDictPart_none (wl : WhitelistConfig) (ev : List (String × Json)) (key : String)
    (h : jlookup ev key = none) :
    WebSocketFilter.fseeDictPart wl (.obj ev) key = pure none := by
  have ha := lookup_none_any h
  simp [WebSocketFilter.fseeDictPart, pyContains, ha]

lemma fseeListPart_some (wl : WhitelistConfig) (ev : List (String × Json)) (R : List String)
    (h : jlookup ev "r" = some (.arr (R.map Json.str))) :
    WebSocketFilter.fseeListPart wl (.obj ev) =
      pure (some ((R.filter (fun e => wl.is_entity_allowed e)).map Json.str)) := by
  have hr := lookup_some_any h
  simp [WebSocketFilter.fseeListPart, pyContains, hr, pyIndex, h, filterRemovals_map_str]

lemma fseeListPart_none (wl : WhitelistConfig) (ev : List (String × Json))
    (h : jlookup ev "r" = none) :
    WebSocketFilter.fseeListPart wl (.obj ev) = pure none := by
  have hr := lookup_none_any h
  simp [WebSocketFilter.fseeListPart, pyContains, hr]

lemma containsACR_obj (ev : List (String × Json)) :
    WebSocketFilter.containsACR (.obj ev) =
      pure (ev.any (fun p => p.1 == "a") || ev.any (fun p => p.1 == "c") ||
        ev.any (fun p => p.1 == "r")) := by
  simp only [WebSocketFilter.containsACR, pyContains]
  by_cases ha : ev.any (fun p => p.1 == "a") <;>
    by_cases hc : ev.any (fun p => p.1 == "c") <;>
      simp [ha, hc]

lemma fsee_characterization (wl : WhitelistConfig) (ev : List (String × Json))
    (Aq Cq : Option (List (String × Json))) (Rq : Option (List String))
    (hA : match Aq with
      | some A => jlookup ev "a" = some (.obj A)
      | none => jlookup ev "a" = none)
    (hC : match Cq with
      | some C => jlookup ev "c" = some (.obj C)
      | none => jlookup ev "c" = none)
    (hR : match Rq with
      | some R => jlookup ev "r" = some (.arr (R.map Json.str))
      | none => jlookup ev "r" = none) :
    WebSocketFilter.filter_subscribe_entities_event wl (.obj ev) =
      pure (
        let A2 := (Aq.getD []).filter (fun p => wl.is_entity_allowed p.1)
        let C2 := (Cq.getD []).filter (fun p => wl.is_entity_allowed p.1)
        let R2 := (Rq.getD []).filter (fun e => wl.is_entity_allowed e)
        let fields : List (String × Json) :=
          (if A2.isEmpty then [] else [("a", Json.obj A2)]) ++
          (if C2.isEmpty then [] else [("c", Json.obj C2)]) ++
          (if R2.isEmpty then [] else [("r", Json.arr (R2.map Json.str))])
        if fields.isEmpty then none else some (.obj fields)) := by
  have hAeq : WebSocketFilter.fseeDictPart wl (.obj ev) "a" =
      pure (Aq.map (fun A => A.filter (fun p => wl.is_entity_allowed p.1))) := by
    rcases Aq with _ | A
    · exact fseeDictPart_none wl ev "a" hA
    · exact fseeDictPart_some wl ev A "a" hA
  have hCeq : WebSocketFilter.fseeDictPart wl (.obj ev) "c" =
      pure (Cq.map (fun C => C.filter (fun p => wl.is_entity_allowed p.1))) := by
    rcases Cq with _ | C
    · exact fseeDictPart_none wl ev "c" hC
    · exact fseeDictPart_some wl ev C "c" hC
  have hReq : WebSocketFilter.fseeListPart wl (.obj ev) =
      pure (Rq.map (fun R => (R.filter (fun e => wl.is_entity_allowed e)).map Json.str)) := by
    rcases Rq with _ | R
    · exact fseeListPart_none wl ev hR
    · exact fseeListPart_some wl ev R hR
  have hmapIsEmpty : ∀ Y : List String, (Y.map Json.str).isEmpty = Y.isEmpty := by
    intro Y
    cases Y <;> rfl
  simp only [WebSocketFilter.filter_subscribe_entities_event, hAeq, hCeq, hReq, pure_bind]
  by_cases hA2 : (Aq.getD []).filter (fun p => wl.is_entity_allowed p.1) = [] <;>
    by_cases hC2 : (Cq.getD []).filter (fun p => wl.is_entity_allowed p.1) = [] <;>
      by_cases hR2 : (Rq.getD []).filter (fun e => wl.is_entity_allowed e) = [] <;>
        rcases Aq with _ | A <;> rcases Cq with _ | C <;> rcases Rq with _ | R <;>
          (simp only [Option.getD_some, Option.getD_none, Option.map_some',
             Option.map_none'] at hA2 hC2 hR2 ⊢;
           simp [hA2, hC2, hR2, hmapIsEmpty, List.isEmpty_iff])

/-- C2: for every `event` frame whose id is a tracked
`subscribe_entities` subscription and whose delta payload carries any of
the sub-containers `a`, `c`, `r` (each present key well-typed: an object
for `a`/`c`, a list of entity-id strings for `r`; an absent key
contributes nothing), the filter keeps in each present sub-container
exactly the entries whose entity id the whitelist allows, drops the
sub-containers that end up empty, drops the whole frame when all are
empty, and otherwise forwards the frame with the filtered `event` put
back in place; scenario 5 (tracking the subscription, then filtering the
upstream event down to `light.living_room`) is the concrete instance. -/
theorem c2_subscribe_entities_delta_filter :
    (∀ (st : WebSocketFilter.FilterState) (kvs ev : List (String × Json))
        (Aq Cq : Option (List (String × Json))) (Rq : Option (List String)),
      jget kvs "type" = Json.str "event" →
      jgetD kvs "event" (.obj []) = Json.obj ev →
      (jget kvs "id").hashable = true →
      jget kvs "id" ∈ st.entity_subscriptions →
      (match Aq with
        | some A => jlookup ev "a" = some (.obj A)
        | none => jlookup ev "a" = none) →
      (match Cq with
        | some C => jlookup ev "c" = some (.obj C)
        | none => jlookup ev "c" = none) →
      (match Rq with
        | some R => jlookup ev "r" = some (.arr (R.map Json.str))
        | none => jlookup ev "r" = none) →
      (Aq.isSome ∨ Cq.isSome ∨ Rq.isSome) →
      WebSocketFilter.filter_server_message st (some (.obj kvs)) =
        .ok (st,
          (if (Aq.getD []).filter (fun p => st.whitelist.is_entity_allowed p.1) = [] ∧
              (Cq.getD []).filter (fun p => st.whitelist.is_entity_allowed p.1) = [] ∧
              (Rq.getD []).filter (fun e => st.whitelist.is_entity_allowed e) = [] then .drop
           else .forward (.obj (setKey kvs "event" (.obj (
             (if (Aq.getD []).filter (fun p => st.whitelist.is_entity_allowed p.1) = [] then []
              else [("a", .obj ((Aq.getD []).filter
                (fun p => st.whitelist.is_entity_allowed p.1)))]) ++
             (if (Cq.getD []).filter (fun p => st.whitelist.is_entity_allowed p.1) = [] then []
              else [("c", .obj ((Cq.getD []).filter
                (fun p => st.whitelist.is_entity_allowed p.1)))]) ++
             (if (Rq.getD []).filter (fun e => st.whitelist.is_entity_allowed e) = [] then []
              else [("r", .arr (((Rq.getD []).filter
                (fun e => st.whitelist.is_entity_allowed e)).map Json.str))]))))))))
    ∧ (WebSocketFilter.filter_client_message livingRoomState (some subscribeMsg5) =
        .ok (subscribedState, true, none))
    ∧ (WebSocketFilter.filter_server_message subscribedState (some upstreamEvent5) =
        .ok (subscribedState, .forward expectedEvent5)) := by
  refine ⟨?_, ?_, ?_⟩
  · intro st kvs ev Aq Cq Rq htype hev hhash hmem hA hC hR hany
    have hfsee := fsee_characterization st.whitelist ev Aq Cq Rq hA hC hR
    have hacr : WebSocketFilter.containsACR (.obj ev) = pure true := by
      rw [containsACR_obj]
      rcases hany with h | h | h
      · rcases Aq with _ | A
        · simp at h
        · simp [lookup_some_any (hA : jlookup ev "a" = some (.obj A))]
      · rcases Cq with _ | C
        · simp at h
        · simp [lookup_some_any (hC : jlookup ev "c" = some (.obj C))]
      · rcases Rq with _ | R
        · simp at h
        · simp [lookup_some_any (hR : jlookup ev "r" = some (.arr (R.map Json.str)))]
    simp only [WebSocketFilter.filter_server_message, WebSocketFilter.filter_single_message,
      WebSocketFilter.resultTracked, htype, hev, WebSocketFilter.pyKeyMem, hhash,
      hacr, hfsee, if_true]
    by_cases hA2 : (Aq.getD []).filter (fun p => st.whitelist.is_entity_allowed p.1) = [] <;>
      by_cases hC2 : (Cq.getD []).filter (fun p => st.whitelist.is_entity_allowed p.1) = [] <;>
        by_cases hR2 : (Rq.getD []).filter (fun e => st.whitelist.is_entity_allowed e) = [] <;>
          (simp [hA2, hC2, hR2, hmem, hhash, List.isEmpty_iff]; try rfl)
  · simp [WebSocketFilter.filter_client_message, WebSocketFilter.messageTypeGate, pyGet,
      jget, jlookup, List.lookup,
      Json.pyTruthy, WebSocketFilter.is_message_type_blockedJ,
      WebSocketFilter.is_message_type_blocked, WebSocketFilter.trackPending,
      WebSocketFilter.trackSubscription, WebSocketFilter.memStrSet,
      WebSocketFilter.ENTITY_LIST_TYPES, WebSocketFilter.DEVICE_LIST_TYPES,
      WebSocketFilter.AREA_LIST_TYPES, WebSocketFilter.FLOOR_LIST_TYPES,
      WebSocketFilter.ENTITY_SUBSCRIPTION_TYPES, WebSocketFilter.ALLOWED_MESSAGE_TYPES,
      WebSocketFilter.BLOCKED_MESSAGE_TYPES, WebSocketFilter.BLOCKED_MESSAGE_PATTERNS,
      WebSocketFilter.BlockPat.matches, strStartsWith, Json.hashable,
      livingRoomWhitelist, livingRoomState, subscribedState, subscribeMsg5]
    rfl
  · simp [WebSocketFilter.filter_server_message, WebSocketFilter.filter_single_message,
      WebSocketFilter.resultTracked, WebSocketFilter.containsACR,
      WebSocketFilter.dispatchListFilter,
      upstreamEvent5, expectedEvent5, livingRoomWhitelist, subscribedState,
      pyGet, jget, jgetD, jlookup, List.lookup, WebSocketFilter.pyKeyMem, Json.hashable,
      pyContains, WebSocketFilter.filter_subscribe_entities_event,
      WebSocketFilter.fseeDictPart, WebSocketFilter.fseeListPart, pyIndex,
      WebSocketFilter.filterRemovals, WhitelistConfig.is_entity_allowed, fnmatch,
      globMatch, setKey, WebSocketFilter.is_entity_allowedJ,
      WebSocketFilter.ENTITY_LIST_TYPES, WebSocketFilter.DEVICE_LIST_TYPES,
      WebSocketFilter.AREA_LIST_TYPES, WebSocketFilter.FLOOR_LIST_TYPES]
    rfl

/-- C2 witness: the universal part applied to a delta event carrying
only the `c` sub-container (the `a` and `r` keys absent), with the
non-whitelisted `sensor.secret` change filtered out. -/
theorem c2_witness :
    WebSocketFilter.filter_server_message subscribedState
      (some (.obj [("id", .num 5), ("type", .str "event"),
        ("event", .obj
          [("c", .obj [("light.living_room", .obj [("+", .obj [("s", .str "on")])]),
                       ("sensor.secret", .obj [("+", .obj [("s", .str "42")])])])])])) =
      .ok (subscribedState,
        .forward (.obj [("id", .num 5), ("type", .str "event"),
          ("event", .obj [("c", .obj [("light.living_room",
            .obj [("+", .obj [("s", .str "on")])])])])])) := by
  have h := c2_subscribe_entities_delta_filter.1 subscribedState
    [("id", .num 5), ("type", .str "event"),
      ("event", .obj
        [("c", .obj [("light.living_room", .obj [("+", .obj [("s", .str "on")])]),
                     ("sensor.secret", .obj [("+", .obj [("s", .str "42")])])])])]
    [("c", .obj [("light.living_room", .obj [("+", .obj [("s", .str "on")])]),
                 ("sensor.secret", .obj [("+", .obj [("s", .str "42")])])])]
    none
    (some [("light.living_room", .obj [("+", .obj [("s", .str "on")])]),
           ("sensor.secret", .obj [("+", .obj [("s", .str "42")])])])
    none
    rfl rfl rfl (by decide) rfl rfl rfl (Or.inr (Or.inl rfl))
  rw [h]
  simp [subscribedState, livingRoomWhitelist, WhitelistConfig.is_entity_allowed,
    fnmatch, globMatch, setKey]

/-! ## C9: limit-mode allowlist immutability -/

namespace WebSocketFilter

lemma trackPending_wl {st st' : FilterState} {t i : Json} {T : List String}
    (h : trackPending st t i T = .ok st') : st'.whitelist = st.whitelist := by
  unfold trackPending at h
  split_ifs at h <;> simp only [exceptPure_eq_ok, exceptThrow_eq_error] at h <;>
    (cases h; rfl)

lemma trackSubscription_wl {st st' : FilterState} {t i : Json}
    (h : trackSubscription st t i = .ok st') : st'.whitelist = st.whitelist := by
  unfold trackSubscription at h
  split_ifs at h <;> simp only [exceptPure_eq_ok, exceptThrow_eq_error] at h <;>
    (cases h; rfl)

lemma filter_client_wl {st st' : FilterState} {p : Option Json} {a : Bool} {e : Option Json}
    (h : filter_client_message st p = .ok (st', a, e)) : st'.whitelist = st.whitelist := by
  match p with
  | none =>
      simp only [filter_client_message, exceptPure_eq_ok] at h
      cases h
      rfl
  | some data =>
      simp only [filter_client_message] at h
      obtain ⟨mt, h1, h⟩ := exceptBind_ok h
      obtain ⟨mid, h2, h⟩ := exceptBind_ok h
      obtain ⟨blocked, h3, h⟩ := exceptBind_ok h
      split at h
      · simp only [exceptPure_eq_ok] at h; cases h; rfl
      · split at h
        · simp only [exceptPure_eq_ok] at h; cases h; rfl
        · split at h
          · simp only [exceptPure_eq_ok] at h; cases h; rfl
          · obtain ⟨st1, ht1, h⟩ := exceptBind_ok h
            obtain ⟨st2, ht2, h⟩ := exceptBind_ok h
            obtain ⟨st3, ht3, h⟩ := exceptBind_ok h
            obtain ⟨st4, ht4, h⟩ := exceptBind_ok h
            obtain ⟨st5, ht5, h⟩ := exceptBind_ok h
            have e1 := trackPending_wl ht1
            have e2 := trackPending_wl ht2
            have e3 := trackPending_wl ht3
            have e4 := trackPending_wl ht4
            have e5 := trackSubscription_wl ht5
            split at h <;>
              (simp only [exceptPure_eq_ok] at h
               injection h with h'
               have hst : st5 = st' := congrArg Prod.fst h'
               rw [← hst, e5, e4, e3, e2, e1])

lemma filter_single_wl {st st' : FilterState} {d : Json} {r : SingleRes}
    (h : filter_single_message st d = .ok (st', r)) : st'.whitelist = st.whitelist := by
  match d with
  | .obj kvs =>
      simp only [filter_single_message] at h
      obtain ⟨tracked, h1, h⟩ := exceptBind_ok h
      split at h
      · split at h
        · obtain ⟨filtered, h3, h⟩ := exceptBind_ok h
          simp only [exceptPure_eq_ok] at h; cases h; rfl
        · simp only [exceptPure_eq_ok] at h; cases h; rfl
      · split at h
        · simp only [exceptPure_eq_ok] at h; cases h; rfl
        · obtain ⟨subscribed, h2, h⟩ := exceptBind_ok h
          split at h
          · obtain ⟨hasACR, h3, h⟩ := exceptBind_ok h
            split at h
            · obtain ⟨fe, h4, h⟩ := exceptBind_ok h
              split at h <;> (simp only [exceptPure_eq_ok] at h; cases h; rfl)
            · simp only [exceptPure_eq_ok] at h; cases h; rfl
          · obtain ⟨et, h3, h⟩ := exceptBind_ok h
            split at h
            · simp only [exceptPure_eq_ok] at h; cases h; rfl
            · obtain ⟨eid, h4, h⟩ := exceptBind_ok h
              split at h
              · simp only [exceptPure_eq_ok] at h; cases h; rfl
              · obtain ⟨allowed, h5, h⟩ := exceptBind_ok h
                split at h <;> (simp only [exceptPure_eq_ok] at h; cases h; rfl)
  | .null | .bool _ | .num _ | .str _ | .arr _ => exact Except.noConfusion h

lemma batchLoop_wl {st st' : FilterState} {msgs : List Json} {out : List Json} {m : Bool}
    (h : batchLoop st msgs = .ok (st', out, m)) : st'.whitelist = st.whitelist := by
  induction msgs generalizing st st' out m with
  | nil =>
      simp only [batchLoop, exceptPure_eq_ok] at h
      cases h
      rfl
  | cons x rest ih =>
      simp only [batchLoop] at h
      obtain ⟨⟨st1, r⟩, h1, h⟩ := exceptBind_ok h
      obtain ⟨⟨st2, tail, mod⟩, h2, h⟩ := exceptBind_ok h
      have e1 := filter_single_wl h1
      have e2 := ih h2
      split at h <;>
        (simp only [exceptPure_eq_ok] at h
         injection h with h'
         have hst : st2 = st' := congrArg Prod.fst h'
         rw [← hst, e2, e1])

lemma filter_server_wl {st st' : FilterState} {p : Option Json} {r : ServerRes}
    (h : filter_server_message st p = .ok (st', r)) : st'.whitelist = st.whitelist := by
  match p with
  | none =>
      simp only [filter_server_message, exceptPure_eq_ok] at h
      cases h
      rfl
  | some (.arr msgs) =>
      simp only [filter_server_message] at h
      obtain ⟨⟨st1, out, m⟩, h1, h⟩ := exceptBind_ok h
      have e1 := batchLoop_wl h1
      split at h
      · simp only [exceptPure_eq_ok] at h; cases h; exact e1
      · split at h <;> (simp only [exceptPure_eq_ok] at h; cases h; exact e1)
  | some (.obj kvs) =>
      simp only [filter_server_message] at h
      obtain ⟨⟨st1, r1⟩, h1, h⟩ := exceptBind_ok h
      have e1 := filter_single_wl h1
      split at h <;> (simp only [exceptPure_eq_ok] at h; cases h; exact e1)
  | some .null | some (.bool _) | some (.num _) | some (.str _) =>
      simp only [filter_server_message] at h
      obtain ⟨⟨st1, r1⟩, h1, h⟩ := exceptBind_ok h
      have e1 := filter_single_wl h1
      split at h <;> (simp only [exceptPure_eq_ok] at h; cases h; exact e1)

end WebSocketFilter

/-- C9: `check_request`, `filter_client_message` and
`filter_server_message` never change the whitelist (any of its seven
collections or the compiled endpoint patterns); the only state the
filter operations may change is the per-connection
`pending_requests`/`entity_subscriptions` part of `FilterState`. -/
theorem c9_limit_mode_immutability :
    (∀ (wl : WhitelistConfig) (path method query : String),
      (check_requestS wl path method query).1 = wl)
    ∧ (∀ (st st' : WebSocketFilter.FilterState) (p : Option Json) (a : Bool)
        (e : Option Json),
      WebSocketFilter.filter_client_message st p = .ok (st', a, e) →
      st'.whitelist = st.whitelist)
    ∧ (∀ (st st' : WebSocketFilter.FilterState) (p : Option Json)
        (r : WebSocketFilter.ServerRes),
      WebSocketFilter.filter_server_message st p = .ok (st', r) →
      st'.whitelist = st.whitelist) :=
  ⟨fun _ _ _ _ => rfl,
   fun _ _ _ _ _ h => WebSocketFilter.filter_client_wl h,
   fun _ _ _ _ h => WebSocketFilter.filter_server_wl h⟩

/-- C9 witness: the whitelist survives a state-changing
`subscribe_entities` tracking call. -/
theorem c9_witness :
    subscribedState.whitelist = livingRoomState.whitelist :=
  c9_limit_mode_immutability.2.1 livingRoomState subscribedState (some subscribeMsg5)
    true none (by rfl)
